import Mathlib

/-!
Shallow embedding of the metadata-merge core of `photoprocessor`
(`merger.py`, `merge_rules.py`, `export_arguments.py`, `models.py`).

Modelling conventions, fixed once for the whole file:

* A Python `datetime` is a `PyDT`: the naive wall-clock reading converted to a
  linear count of seconds (via the standard civil-calendar conversion), plus
  the attached `tzinfo`, if any.  A `tzinfo` is either a fixed-offset
  `datetime.timezone` (offset in seconds) or a `zoneinfo.ZoneInfo`, referred to
  by an index into an ambient environment `TZEnv` that gives each zone's UTC
  offset as a function of the UTC instant (used by `astimezone`) and of the
  local wall time (used by `utcoffset`).  CPython's `timezone(timedelta(0))`
  returns the `timezone.utc` singleton, and `datetime.fromisoformat` builds
  fixed-offset `timezone` objects only, so the source's `tzinfo is timezone.utc`
  test is exactly `tz = some (.fixed 0)` in this model.
* Python floats (GPS coordinates) are modelled as `Rat` with exact arithmetic.
* The external `TimezoneFinder().timezone_at` + `ZoneInfo(name)` lookup is
  modelled as a total function `TZEnv.tzAt` returning an optional zone index
  (the source wraps the lookup in `try/except` where it is consulted by the
  date-time step).
* Python `str` conflict messages are modelled by the inductive `Msg`, one
  constructor per `record_conflict` call site, carrying exactly the data that
  the source interpolates into the message string.
* Python `set`s of values are determinised as duplicate-free lists in first
  occurrence order; `sorted` is modelled by a stable insertion sort.
-/

namespace MediaMerge

/-- A Python `tzinfo`: a fixed-offset `datetime.timezone` (offset in seconds)
or a `zoneinfo.ZoneInfo` referenced by an index into the ambient `TZEnv`. -/
inductive PyTZ where
  | fixed (off : Int)
  | zone (z : Nat)
deriving DecidableEq, Repr

/-- A Python `datetime`: naive wall-clock reading in seconds plus optional
`tzinfo`. -/
structure PyDT where
  wall : Int
  tz : Option PyTZ := none
deriving DecidableEq, Repr

/-- One typed metadata value (the non-null slot of a `MetadataEntry`, or a
value held in the merge context). -/
inductive PVal where
  | s (v : String)
  | dt (v : PyDT)
  | r (v : Rat)
deriving DecidableEq, Repr

/-- Ambient environment: semantics of IANA zones (offset by UTC instant for
`astimezone`, offset by local wall time for `utcoffset`), the system-local
offset used by `astimezone` on naive datetimes, and the external
`TimezoneFinder`/`ZoneInfo` lookup, modelled as a total function. -/
structure TZEnv where
  zoneAtInstant : Nat → Int → Int
  zoneAtWall : Nat → Int → Int
  sysOff : Int → Int
  tzAt : PVal → PVal → Option Nat

/-- UTC offset of a `tzinfo` evaluated at a local wall time. -/
def PyTZ.offAtWall (E : TZEnv) : PyTZ → Int → Int
  | .fixed o, _ => o
  | .zone z, w => E.zoneAtWall z w

/-- Python `d.tzinfo is not None`. -/
def PyDT.isAware (d : PyDT) : Bool := d.tz.isSome

/-- Python `d.utcoffset()` (in seconds). -/
def PyDT.utcoffset (E : TZEnv) (d : PyDT) : Option Int :=
  d.tz.map (fun t => t.offAtWall E d.wall)

/-- The UTC instant of a datetime.  For naive datetimes this is the
system-local interpretation, as used by Python's `astimezone` on naive
values. -/
def PyDT.instant (E : TZEnv) (d : PyDT) : Int :=
  match d.tz with
  | none => d.wall - E.sysOff d.wall
  | some t => d.wall - t.offAtWall E d.wall

/-- Python `d.astimezone(t)`. -/
def PyDT.astimezone (E : TZEnv) (d : PyDT) (t : PyTZ) : PyDT :=
  let i := d.instant E
  match t with
  | .fixed o => ⟨i + o, some (.fixed o)⟩
  | .zone z => ⟨i + E.zoneAtInstant z i, some (.zone z)⟩

/-- Python `d.replace(tzinfo=...)`. -/
def PyDT.replaceTZ (d : PyDT) (t : Option PyTZ) : PyDT := ⟨d.wall, t⟩

/-- The key by which Python compares datetimes: naive by wall reading, aware
by UTC instant (via `utcoffset`). -/
def PyDT.cmpKey (E : TZEnv) (d : PyDT) : Int :=
  match d.tz with
  | none => d.wall
  | some t => d.wall - t.offAtWall E d.wall

/-- Python `d.tzinfo is timezone.utc` (see the header: CPython interns the zero
fixed offset as the UTC singleton, and a `ZoneInfo` is never that object). -/
def PyDT.isUTC (d : PyDT) : Bool := d.tz == some (.fixed 0)

/-- Python `min(a, b)` on datetimes, Python semantics: keep the first on ties. -/
def pyMinD (E : TZEnv) (a b : PyDT) : PyDT :=
  if b.cmpKey E < a.cmpKey E then b else a

/-- Python `models.MetadataEntry`: the EAV record with one populated typed slot. -/
structure MetadataEntry where
  id : Int
  key : String
  value_str : Option String := none
  value_dt : Option PyDT := none
  value_real : Option Rat := none
deriving DecidableEq, Repr

/-- Second and third operand of the coalescing chain
`s.value_str or s.value_dt or s.value_real`. -/
def MetadataEntry.coalesce2 (e : MetadataEntry) : Option PVal :=
  match e.value_dt with
  | some d => some (.dt d)
  | none => e.value_real.map .r

/-- Python `s.value_str or s.value_dt or s.value_real`: the first TRUTHY slot (an
empty string is falsy and is skipped; a final `value_real` is returned even
when it is `0.0`, since `or` returns its last operand unconditionally). -/
def MetadataEntry.coalesce (e : MetadataEntry) : Option PVal :=
  match e.value_str with
  | some s => if s = "" then e.coalesce2 else some (.s s)
  | none => e.coalesce2

/-- Keep the first occurrence of each element (determinisation of a Python
`set` built by iteration). -/
def dedupFirst {α} [DecidableEq α] (l : List α) : List α :=
  l.foldl (fun acc a => if acc.contains a then acc else acc ++ [a]) []

/-- Keep the first occurrence of each element under an explicit equality test
(determinisation of a Python `set` whose element equality is coarser than
structural equality: adding an element equal to a held one is a no-op, so the
first-inserted representative survives). -/
def dedupFirstBy {α} (eqb : α → α → Bool) (l : List α) : List α :=
  l.foldl (fun acc a => if acc.any (fun b => eqb b a) then acc else acc ++ [a]) []

/-- Insert into a sorted list after all elements not strictly greater
(stable). -/
def insertSorted {α} (lt : α → α → Bool) (a : α) : List α → List α
  | [] => [a]
  | b :: t => if lt a b then a :: b :: t else b :: insertSorted lt a t

/-- Python `sorted` (stable, ascending) with a strict-less comparator. -/
def pySorted {α} (lt : α → α → Bool) (l : List α) : List α :=
  l.foldl (fun acc a => insertSorted lt a acc) []

/-- Python `DateTimeCandidate`: a cluster of nearly identical datetime values.
Source keys are plain strings: the only place the source would build a
tuple-keyed candidate (the EXIF date+offset pair in `_get_candidate`) is
unreachable, because the lookup helper there reads the nonexistent attribute
`MetadataEntry.value` and raises first (see `getCandidate` below). -/
structure Cand where
  rep : PyDT
  keys : Finset String := ∅
  ids : Finset Int := ∅
deriving DecidableEq

/-- Python `DateTimeCandidate.is_aware`. -/
def Cand.isAware (c : Cand) : Bool := c.rep.isAware

/-- Python `DateTimeCandidate.from_entry` (only ever invoked on entries whose
`value_dt` is populated; the default covers the dead case). -/
def Cand.fromEntry (e : MetadataEntry) : Cand :=
  ⟨e.value_dt.getD ⟨0, none⟩, {e.key}, {e.id}⟩

/-- The matching test of `DateTimeCandidateContainer._is_match` on the
representative datetimes (which is all the source reads): same awareness;
aware values must agree on the UTC instant within tolerance and have equal
UTC offsets; naive values must agree on the wall reading within
tolerance. -/
def dtMatch (E : TZEnv) (tol : Int) (r1 r2 : PyDT) : Bool :=
  if r1.isAware != r2.isAware then false
  else if r1.isAware then
    decide (|r1.cmpKey E - r2.cmpKey E| ≤ tol) && decide (r1.utcoffset E = r2.utcoffset E)
  else decide (|r1.wall - r2.wall| ≤ tol)

/-- Python `DateTimeCandidateContainer._is_match` (tolerance in seconds). -/
def isMatch (E : TZEnv) (tol : Int) (c1 c2 : Cand) : Bool :=
  dtMatch E tol c1.rep c2.rep

/-- Python `DateTimeCandidateContainer.add_candidate` on the candidate list: merge
the new candidate with every matching existing one (earliest representative
value, union of keys and ids), or append it if nothing matches. -/
def addCandidate (E : TZEnv) (tol : Int) (cs : List Cand) (n : Cand) : List Cand :=
  let matching := cs.filter (fun c => isMatch E tol c n)
  if matching.isEmpty then cs ++ [n]
  else
    let group := matching ++ [n]
    let rep := match group.map Cand.rep with
      | [] => n.rep
      | h :: t => t.foldl (pyMinD E) h
    let keys := group.foldl (fun acc c => acc ∪ c.keys) ∅
    let ids := group.foldl (fun acc c => acc ∪ c.ids) ∅
    cs.filter (fun c => !(matching.contains c)) ++ [⟨rep, keys, ids⟩]

/-- Python `aware_candidates` view. -/
def awareCands (cs : List Cand) : List Cand := cs.filter Cand.isAware

/-- Python `naive_candidates` view. -/
def naiveCands (cs : List Cand) : List Cand := cs.filter (fun c => !c.isAware)

/-- One conflict message per `record_conflict` call site, carrying the data
the source interpolates into the message string. -/
inductive Msg where
  /-- `BasicFieldMergeStep.process`: conflicting values (sorted by `str`) and
  contributing entry ids. -/
  | conflictingValues (values : List PVal) (ids : List Int)
  /-- `GPSDateTimeMergeStep.process`, wrapping the first basic conflict. -/
  | gpsDateTimeWrapped (m : Msg)
  /-- `GPSDateTimeMergeStep.process`: non-datetime `Composite:GPSDateTime`. -/
  | gpsDateTimeInvalidType
  /-- `GPSMergeStep._merge_values_from_tags`: values from one source type not
  close enough (sorted distinct values, sorted source entry ids). -/
  | gpsNotClose (values : List Rat) (ids : List Int)
  /-- `GPSMergeStep._process_coordinate`: primary/secondary stage wrapper. -/
  | gpsStageConflict (primary : Bool) (m : Msg)
  /-- `_get_filename_date_candidates`: several distinct filename dates. -/
  | filenameMultipleDates (cands : List Cand)
  /-- `_resolve_with_aware`: no aware candidate available. -/
  | noAwareCandidates
  /-- `_resolve_with_aware`: multiple distinct aware candidates. -/
  | multipleAware (cands : List Cand)
  /-- `_resolve_with_aware`: aware offset conflicts with the GPS-inferred
  offset. -/
  | gpsOffsetMismatch (actual expected : Option Int)
  /-- `_infer_timezone_offset_from_naive_candidates`: offset outside
  [-12h, +14h]. -/
  | invalidImpliedOffset (nc : Cand) (off : Int)
  /-- `_infer_timezone_offset_from_naive_candidates`: offset not a 30-minute
  multiple within a minute. -/
  | offsetNot30Min (nc : Cand) (off : Int)
  /-- `_infer_timezone_offset_from_naive_candidates`: several distinct
  implied offsets (sorted). -/
  | multipleImpliedOffsets (ncs : List Cand) (offs : List Int)
  /-- `_validate_aware_against_naive`: naive candidate matches neither the
  local nor the UTC reading. -/
  | naiveMismatch (nc : Cand)
  /-- `_resolve_with_naive_only`: multiple distinct naive candidates. -/
  | multipleNaive (cands : List Cand)
  /-- `_handle_naive_pair_with_gps`: pair not explained by the GPS zone. -/
  | naivePairUnexplained (t1 t2 : PyDT)
deriving DecidableEq

/-- A value stored in `MergeContext.merged_data`: a `SimpleArgument`, a
`DateTimeArgument` (whose payload the source does not type-check, hence
`PVal`), or a raw value (`generate_argument=False`). -/
inductive MVal where
  | simpleArg (tag : String) (value : PVal)
  | dtArg (value : PVal) (dateType : String)
  | raw (value : PVal)
deriving DecidableEq

/-- Lookup in an association list modelling a Python dict. -/
def lookupKV {β} (l : List (String × β)) (k : String) : Option β :=
  (l.find? (fun p => p.1 == k)).map (·.2)

/-- Dict assignment: replace in place if present, else append. -/
def setKV {β} (l : List (String × β)) (k : String) (v : β) : List (String × β) :=
  if (l.find? (fun p => p.1 == k)).isSome then
    l.map (fun p => if p.1 == k then (k, v) else p)
  else l ++ [(k, v)]

/-- Python `MergeContext`. -/
structure Ctx where
  entries : List MetadataEntry
  merged : List (String × MVal) := []
  conflicts : List (String × List Msg) := []
  finalized : List String := []
deriving DecidableEq

/-- Python `MergeContext.get_entries_by_keys`. -/
def Ctx.getEntriesByKeys (ctx : Ctx) (ks : List String) : List MetadataEntry :=
  ctx.entries.filter (fun e => ks.contains e.key)

/-- Python `MergeContext.get_value` with `required=False`: unwraps an
`ExportArgument` to its raw value. -/
def Ctx.getValue (ctx : Ctx) (f : String) : Option PVal :=
  match lookupKV ctx.merged f with
  | some (.simpleArg _ v) => some v
  | some (.dtArg v _) => some v
  | some (.raw v) => some v
  | none => none

/-- Python `MergeContext.set_value` (the argument objects built by the steps are
never `None`, so the value is always stored and the field finalized). -/
def Ctx.setValue (ctx : Ctx) (f : String) (v : MVal) : Ctx :=
  { ctx with
    merged := setKV ctx.merged f v
    finalized := if ctx.finalized.contains f then ctx.finalized else ctx.finalized ++ [f] }

/-- Python `MergeContext.record_conflict`. -/
def Ctx.recordConflict (ctx : Ctx) (f : String) (m : Msg) : Ctx :=
  { ctx with
    conflicts :=
      match lookupKV ctx.conflicts f with
      | some ms => setKV ctx.conflicts f (ms ++ [m])
      | none => ctx.conflicts ++ [(f, [m])] }

/-- The fields present in the conflicts map (`field in context.conflicts`). -/
def Ctx.conflictKeys (ctx : Ctx) : List String := ctx.conflicts.map (·.1)

/-- Deterministic stand-in for CPython `str()` used as the sort key in
`BasicFieldMergeStep` (`sorted(..., key=str)`); `str` of a string is the
string itself, which is the only case a claim inspects. -/
def pvalStr : PVal → String
  | .s v => v
  | .dt d => toString d.wall
  | .r q => toString q

/-- Lexicographic code-point comparison (Python string `<`), in a form the
kernel evaluates. -/
def strLtB : List Char → List Char → Bool
  | [], [] => false
  | [], _ :: _ => true
  | _ :: _, [] => false
  | a :: as, b :: bs =>
    if a.toNat < b.toNat then true
    else if b.toNat < a.toNat then false
    else strLtB as bs

/-- Strict comparator for `sorted(..., key=str)`. -/
def pvalLt (a b : PVal) : Bool := strLtB (pvalStr a).toList (pvalStr b).toList

/-- Strict comparators for `sorted` on floats and ints. -/
def ratLt (a b : Rat) : Bool := a < b

/-- Strict comparator for `sorted` on entry ids. -/
def intLt (a b : Int) : Bool := a < b

/-- Python `==` on a stored value, the element equality of the set
`{s.value_str or s.value_dt or s.value_real ...}`: strings and floats compare
structurally, datetimes by Python datetime equality (naive by wall reading,
aware by UTC instant — so aware values with different offsets but the same
instant are one set element — and a naive and an aware value are unequal);
values of different types are unequal. -/
def pvalEqB (E : TZEnv) : PVal → PVal → Bool
  | .s a, .s b => a == b
  | .dt a, .dt b => a.isAware == b.isAware && a.cmpKey E == b.cmpKey E
  | .r a, .r b => a == b
  | _, _ => false

/-- The distinct truthy coalesced values for one key (the Python set
`{s.value_str or s.value_dt or s.value_real for s in relevant}` minus
`None`), in first-occurrence entry order, deduplicated by Python `==`. -/
def distinctValues (E : TZEnv) (ctx : Ctx) (key : String) : List PVal :=
  dedupFirstBy (pvalEqB E)
    ((ctx.getEntriesByKeys [key]).filterMap MetadataEntry.coalesce)

/-- Python `BasicFieldMergeStep.process` for key `key` with `generate_argument`. -/
def basicFieldMerge (E : TZEnv) (key : String) (generateArgument : Bool)
    (ctx : Ctx) : Ctx :=
  let relevant := ctx.getEntriesByKeys [key]
  let vals := dedupFirstBy (pvalEqB E) (relevant.filterMap MetadataEntry.coalesce)
  match vals with
  | [] => ctx
  | [v] =>
    ctx.setValue key (if generateArgument then .simpleArg key v else .raw v)
  | _ =>
    ctx.recordConflict key
      (.conflictingValues (pySorted pvalLt vals)
        ((relevant.filter (fun e => e.coalesce.isSome)).map (·.id)))

/-- Python `merge_rules.gps_comparator`: `math.isclose(v1, v2, abs_tol=1e-6)` with
the default `rel_tol=1e-9`. -/
def gpsComparator (v1 v2 : Rat) : Bool :=
  decide (|v1 - v2| ≤ max ((1 / 1000000000) * max |v1| |v2|) (1 / 1000000))

/-- Python `merge_rules.rules.compare`: the GPS comparator is registered for the two
coordinate fields, everything else falls back to equality. -/
def rulesCompare (fieldName : String) (v1 v2 : Rat) : Bool :=
  if fieldName = "gps_latitude" ∨ fieldName = "gps_longitude" then gpsComparator v1 v2
  else v1 == v2

-- Civil-calendar conversions (standard days-from-civil algorithm), used to
-- express concrete datetimes and the source's date arithmetic.

/-- Days since 1970-01-01 of a civil date (valid for year ≥ 0). -/
def daysFromCivil (y m d : Int) : Int :=
  let y := y - (if m ≤ 2 then 1 else 0)
  let era := y / 400
  let yoe := y - era * 400
  let mp := (m + 9) % 12
  let doy := (153 * mp + 2) / 5 + d - 1
  let doe := yoe * 365 + yoe / 4 - yoe / 100 + doy
  era * 146097 + doe - 719468

/-- Wall-clock seconds of a civil datetime. -/
def mkWall (y mo d h mi s : Int) : Int :=
  86400 * daysFromCivil y mo d + 3600 * h + 60 * mi + s

/-- Inverse of `daysFromCivil`. -/
def civilFromDays (z0 : Int) : Int × Int × Int :=
  let z := z0 + 719468
  let era := (if z ≥ 0 then z else z - 146096) / 146097
  let doe := z - era * 146097
  let yoe := (doe - doe / 1460 + doe / 36524 - doe / 146096) / 365
  let y := yoe + era * 400
  let doy := doe - (365 * yoe + yoe / 4 - yoe / 100)
  let mp := (5 * doy + 2) / 153
  let d := doy - (153 * mp + 2) / 5 + 1
  let m := mp + (if mp < 10 then 3 else -9)
  (y + (if m ≤ 2 then 1 else 0), m, d)

/-- Gregorian leap year. -/
def isLeap (y : Int) : Bool := (y % 4 == 0 && y % 100 != 0) || (y % 400 == 0)

/-- Length of a month (`datetime`'s calendar validation). -/
def daysInMonth (y m : Int) : Int :=
  if m = 2 then (if isLeap y then 29 else 28)
  else if m = 4 ∨ m = 6 ∨ m = 9 ∨ m = 11 then 30
  else 31

/-- Zero-pad to 2 digits (for nonnegative inputs). -/
def pad2 (n : Int) : String :=
  if n < 10 then "0" ++ toString n else toString n

/-- Zero-pad a year to 4 digits. -/
def pad4 (n : Int) : String :=
  if n < 10 then "000" ++ toString n
  else if n < 100 then "00" ++ toString n
  else if n < 1000 then "0" ++ toString n
  else toString n

/-- Python `strftime('%Y:%m:%d')` on a wall reading. -/
def fmtDate (w : Int) : String :=
  match civilFromDays (Int.fdiv w 86400) with
  | (y, m, d) => pad4 y ++ ":" ++ pad2 m ++ ":" ++ pad2 d

/-- Python `strftime('%H:%M:%S')` on a wall reading. -/
def fmtTime (w : Int) : String :=
  let s := w % 86400
  pad2 (s / 3600) ++ ":" ++ pad2 ((s % 3600) / 60) ++ ":" ++ pad2 (s % 60)

/-- Deterministic stand-in for `str(float)` when a merged GPS value is
stored as `SimpleArgument(tag, str(value))`. -/
def ratStr (q : Rat) : String := toString q

/-- Python `GPSDateTimeMergeStep.process`. -/
def gpsDateTimeStep (E : TZEnv) (ctx : Ctx) : Ctx :=
  let ctx := basicFieldMerge E "Composite:GPSDateTime" false ctx
  if ctx.conflictKeys.contains "Composite:GPSDateTime" then
    ctx.recordConflict "gps_datetime"
      (.gpsDateTimeWrapped
        (((lookupKV ctx.conflicts "Composite:GPSDateTime").getD []).headD .gpsDateTimeInvalidType))
  else
    match ctx.getValue "Composite:GPSDateTime" with
    | none => ctx
    | some (.dt d) =>
      (ctx.setValue "GPSDateStamp" (.simpleArg "GPSDateStamp" (.s (fmtDate d.wall)))).setValue
        "GPSTimeStamp" (.simpleArg "GPSTimeStamp" (.s (fmtTime d.wall)))
    | some _ => ctx.recordConflict "gps_datetime" .gpsDateTimeInvalidType

/-- The distinct non-null `value_real`s under the given tags, in
first-occurrence entry order (the Python set
`{e.value_real for e in entries if e.value_real is not None}`). -/
def gpsValues (ctx : Ctx) (tags : List String) : List Rat :=
  dedupFirst ((ctx.getEntriesByKeys tags).filterMap MetadataEntry.value_real)

/-- Python `GPSMergeStep._merge_values_from_tags`: compare every distinct value
against the first one (the set-iteration reference); return the reference on
success, a conflict message naming the reference and the values that differ
from it (with their source entry ids) otherwise, and `(none, none)` when
there is no non-null data. -/
def mergeValuesFromTags (ctx : Ctx) (key : String) (tags : List String) :
    Option Rat × Option Msg :=
  let entries := ctx.getEntriesByKeys tags
  if entries.isEmpty then (none, none)
  else
    match gpsValues ctx tags with
    | [] => (none, none)
    | ref :: rest =>
      let conflicting := rest.filter (fun v => !rulesCompare key ref v)
      if conflicting.isEmpty then (some ref, none)
      else
        let allDistinct := ref :: conflicting
        let srcIds :=
          dedupFirst
            ((entries.filter (fun e =>
                match e.value_real with
                | some v => allDistinct.contains v
                | none => false)).map (·.id))
        (none, some (.gpsNotClose (pySorted ratLt allDistinct) (pySorted intLt srcIds)))

/-- Stage 2 of `GPSMergeStep._process_coordinate` (the sidecar source). -/
def processCoordinateStage2 (ctx : Ctx) (key : String) (sec : List String)
    (finalTag : String) : Ctx :=
  match mergeValuesFromTags ctx key sec with
  | (_, some m) => ctx.recordConflict key (.gpsStageConflict false m)
  | (some v, none) => ctx.setValue key (.simpleArg finalTag (.s (ratStr v)))
  | (none, none) => ctx

/-- Python `GPSMergeStep._process_coordinate`: primary stage first; a primary
conflict or value stops processing; the secondary stage runs only when the
primary stage found no data. -/
def processCoordinate (ctx : Ctx) (key : String) (prim sec : List String)
    (finalTag : String) : Ctx :=
  match mergeValuesFromTags ctx key prim with
  | (_, some m) => ctx.recordConflict key (.gpsStageConflict true m)
  | (some v, none) => ctx.setValue key (.simpleArg finalTag (.s (ratStr v)))
  | (none, none) => processCoordinateStage2 ctx key sec finalTag

/-- Python `GPSMergeStep.process`. -/
def gpsMergeStep (ctx : Ctx) : Ctx :=
  let c1 :=
    processCoordinate ctx "gps_latitude" ["Composite:GPSLatitude"]
      ["google:geoDataLatitude"] "GPSLatitude"
  processCoordinate c1 "gps_longitude" ["Composite:GPSLongitude"]
    ["google:geoDataLongitude"] "GPSLongitude"

-- `DateTimeAndZoneMergeStep._detect_date_from_file_name`: the timestamp
-- regex, implemented over character lists.  All numeric sub-patterns are
-- fixed-width and every optional separator class is disjoint from the digit
-- class that follows it, so the greedy match is deterministic; `re.search`
-- tries start positions left to right, guarded by the `(?<!\d)` lookbehind.
-- `\d` and case folding are modelled over ASCII.

/-- Numeric value of an ASCII digit. -/
def digitVal (c : Char) : Int := (c.toNat : Int) - 48

/-- Pattern `(19[7-9]\d|20[0-4]\d|2050)`. -/
def year4 : List Char → Option (Int × List Char)
  | a :: b :: c :: d :: t =>
    if a = '1' ∧ b = '9' ∧ (c = '7' ∨ c = '8' ∨ c = '9') ∧ d.isDigit then
      some (1900 + 10 * digitVal c + digitVal d, t)
    else if a = '2' ∧ b = '0' ∧ (c = '0' ∨ c = '1' ∨ c = '2' ∨ c = '3' ∨ c = '4') ∧ d.isDigit then
      some (2000 + 10 * digitVal c + digitVal d, t)
    else if a = '2' ∧ b = '0' ∧ c = '5' ∧ d = '0' then some (2050, t)
    else none
  | _ => none

/-- An optional one-character separator class. -/
def sepOpt (seps : List Char) : List Char → List Char
  | [] => []
  | c :: t => if seps.contains c then t else c :: t

/-- Pattern `(0[1-9]|1[0-2])`. -/
def month2 : List Char → Option (Int × List Char)
  | a :: b :: t =>
    if a = '0' ∧ b.isDigit ∧ b ≠ '0' then some (digitVal b, t)
    else if a = '1' ∧ (b = '0' ∨ b = '1' ∨ b = '2') then some (10 + digitVal b, t)
    else none
  | _ => none

/-- Pattern `(0[1-9]|[12][0-9]|3[01])`. -/
def day2 : List Char → Option (Int × List Char)
  | a :: b :: t =>
    if a = '0' ∧ b.isDigit ∧ b ≠ '0' then some (digitVal b, t)
    else if (a = '1' ∨ a = '2') ∧ b.isDigit then some (10 * digitVal a + digitVal b, t)
    else if a = '3' ∧ (b = '0' ∨ b = '1') then some (30 + digitVal b, t)
    else none
  | _ => none

/-- Pattern `([01][0-9]|2[0-3])`. -/
def hour2 : List Char → Option (Int × List Char)
  | a :: b :: t =>
    if (a = '0' ∨ a = '1') ∧ b.isDigit then some (10 * digitVal a + digitVal b, t)
    else if a = '2' ∧ (b = '0' ∨ b = '1' ∨ b = '2' ∨ b = '3') then some (20 + digitVal b, t)
    else none
  | _ => none

/-- Pattern `([0-5][0-9])`. -/
def minsec2 : List Char → Option (Int × List Char)
  | a :: b :: t =>
    if (a = '0' ∨ a = '1' ∨ a = '2' ∨ a = '3' ∨ a = '4' ∨ a = '5') ∧ b.isDigit then
      some (10 * digitVal a + digitVal b, t)
    else none
  | _ => none

/-- The full timestamp pattern anchored at one position. -/
def matchTimestampAt (cs : List Char) : Option (Int × Int × Int × Int × Int × Int) := do
  let (y, cs) ← year4 cs
  let cs := sepOpt ['-', '_'] cs
  let (mo, cs) ← month2 cs
  let cs := sepOpt ['-', '_'] cs
  let (d, cs) ← day2 cs
  let cs := sepOpt ['-', '_', 'T', ' ', '\t', '\n', '\r', '\x0b', '\x0c'] cs
  let (h, cs) ← hour2 cs
  let cs := sepOpt ['-', '_', ':'] cs
  let (mi, cs) ← minsec2 cs
  let cs := sepOpt ['-', '_', ':'] cs
  let (s, _) ← minsec2 cs
  pure (y, mo, d, h, mi, s)

/-- Python `re.search` over start positions, with the `(?<!\d)` lookbehind. -/
def scanTimestamp (prev : Option Char) : List Char → Option (Int × Int × Int × Int × Int × Int)
  | [] => none
  | c :: rest =>
    match if (prev.map Char.isDigit).getD false then none else matchTimestampAt (c :: rest) with
    | some g => some g
    | none => scanTimestamp (some c) rest

/-- Python `DateTimeAndZoneMergeStep._detect_date_from_file_name` (the trailing
`datetime` construction turns an impossible calendar day into `None`; the
regex already bounds the other fields). -/
def detectDateFromFileName (s : String) : Option PyDT :=
  if s = "" then none
  else
    match scanTimestamp none s.toList with
    | some (y, mo, d, h, mi, sec) =>
      if d ≤ daysInMonth y mo then some ⟨mkWall y mo d h mi sec, none⟩ else none
    | none => none

-- `WhatsappDateCorrectionStep`: the `(?:IMG|VID|AUD|PTT)-(\d{8})-WA\d+`
-- signature (IGNORECASE), leftmost match, and the `strptime('%Y%m%d')`
-- validation.

/-- The WhatsApp signature anchored at one position; returns the 8 captured
digits. -/
def waMatchAt (cs : List Char) : Option (List Char) :=
  match cs with
  | a :: b :: c :: '-' :: d1 :: d2 :: d3 :: d4 :: d5 :: d6 :: d7 :: d8 :: '-' :: w :: x :: n :: _ =>
    let tag := [a.toUpper, b.toUpper, c.toUpper]
    if (tag = ['I', 'M', 'G'] ∨ tag = ['V', 'I', 'D'] ∨ tag = ['A', 'U', 'D'] ∨
          tag = ['P', 'T', 'T'])
        ∧ [d1, d2, d3, d4, d5, d6, d7, d8].all Char.isDigit
        ∧ w.toUpper = 'W' ∧ x.toUpper = 'A' ∧ n.isDigit then
      some [d1, d2, d3, d4, d5, d6, d7, d8]
    else none
  | _ => none

/-- Leftmost `re.search` for the WhatsApp signature. -/
def waSearch : List Char → Option (List Char)
  | [] => none
  | c :: t =>
    match waMatchAt (c :: t) with
    | some ds => some ds
    | none => waSearch t

/-- Python `datetime.strptime(d_str, "%Y%m%d").replace(hour=12, ...)`: `strptime`'s
regex requires a two-digit month 01-12 and a two-digit day 01-31 consuming
all eight digits, and the `datetime` constructor validates the calendar day
and rejects year 0; failure raises `ValueError`, modelled as `none`. -/
def waParse (ds : List Char) : Option PyDT :=
  match ds with
  | [y1, y2, y3, y4, m1, m2, e1, e2] =>
    let y := 1000 * digitVal y1 + 100 * digitVal y2 + 10 * digitVal y3 + digitVal y4
    let mo := 10 * digitVal m1 + digitVal m2
    let d := 10 * digitVal e1 + digitVal e2
    if 1 ≤ y ∧ 1 ≤ mo ∧ mo ≤ 12 ∧ 1 ≤ d ∧ d ≤ daysInMonth y mo then
      some ⟨mkWall y mo d 12 0 0, none⟩
    else none
  | _ => none

/-- The filename loop of `WhatsappDateCorrectionStep.process`: first entry
with a truthy `value_str` whose first signature match carries a valid date
(an invalid date moves on to the next entry). -/
def waScan : List MetadataEntry → Option PyDT
  | [] => none
  | e :: t =>
    match e.value_str with
    | some s =>
      if s = "" then waScan t
      else
        match waSearch s.toList with
        | some ds =>
          match waParse ds with
          | some d => some d
          | none => waScan t
        | none => waScan t
    | none => waScan t

-- `FallbackRoughDateFromFilename`: the
-- `(20[0-2]\d|19[8-9]\d)(0[1-9]|1[0-2])(0[1-9]|[12]\d|3[01])` pattern.

/-- Pattern `(20[0-2]\d|19[8-9]\d)`. -/
def roughYear4 : List Char → Option (Int × List Char)
  | a :: b :: c :: d :: t =>
    if a = '2' ∧ b = '0' ∧ (c = '0' ∨ c = '1' ∨ c = '2') ∧ d.isDigit then
      some (2000 + 10 * digitVal c + digitVal d, t)
    else if a = '1' ∧ b = '9' ∧ (c = '8' ∨ c = '9') ∧ d.isDigit then
      some (1900 + 10 * digitVal c + digitVal d, t)
    else none
  | _ => none

/-- The rough `YYYYMMDD` pattern anchored at one position. -/
def roughMatchAt (cs : List Char) : Option (Int × Int × Int) := do
  let (y, cs) ← roughYear4 cs
  let (mo, cs) ← month2 cs
  let (d, _) ← day2 cs
  pure (y, mo, d)

/-- Leftmost `re.search` for the rough `YYYYMMDD` pattern. -/
def roughSearch : List Char → Option (Int × Int × Int)
  | [] => none
  | c :: t =>
    match roughMatchAt (c :: t) with
    | some g => some g
    | none => roughSearch t

/-- Python `os.path.basename` (POSIX). -/
def pathBase (s : String) : String := ((s.splitOn "/").getLast? ).getD s

-- `DateTimeAndZoneMergeStep`.

/-- A configured metadata key: a plain key or an EXIF date+offset pair. -/
inductive DTKey where
  | single (k : String)
  | pair (k1 k2 : String)
deriving DecidableEq

/-- Python `DateTimeAndZoneMergeStep.UTC_KEYS`. -/
def utcKeys : List String :=
  ["QuickTime:CreateDate", "QuickTime:ModifyDate", "Composite:GPSDateTime",
    "google:photoTakenTime"]

/-- Python `UTC_KEYS` as a finset, for the subset test on candidate key sets. -/
def utcKeysFinset : Finset String :=
  {"QuickTime:CreateDate", "QuickTime:ModifyDate", "Composite:GPSDateTime",
    "google:photoTakenTime"}

/-- Python `DateTimeAndZoneMergeStep._get_metadata_keys`. -/
def getMetadataKeys (dateType : String) : List DTKey :=
  if dateType = "taken" then
    [.single "XMP:DateTimeOriginal",
      .pair "EXIF:DateTimeOriginal" "EXIF:OffsetTimeOriginal",
      .single "EXIF:DateTimeOriginal",
      .single "QuickTime:CreationDate",
      .single "QuickTime:CreateDate",
      .single "Keys:CreationDate",
      .single "UserData:DateTimeOriginal",
      .single "XMP:CreateDate",
      .single "EXIF:CreateDate",
      .single "google:photoTakenTime",
      .single "XMP-exif:DateTimeOriginal",
      .single "XMP-xmp:CreateDate"]
  else if dateType = "modified" then
    [.single "EXIF:ModifyDate",
      .pair "EXIF:ModifyDate" "EXIF:OffsetTime",
      .single "XMP:ModifyDate",
      .single "XMP-xmp:ModifyDate",
      .single "QuickTime:ModifyDate"]
  else []

/-- The string-key loop of `_get_candidate`: first entry with the key and a
non-null `value_dt`; a naive value under a known-UTC key is stamped UTC. -/
def firstCandFor (key : String) : List MetadataEntry → Option Cand
  | [] => none
  | e :: t =>
    if e.key = key then
      match e.value_dt with
      | some d =>
        if d.isAware || !(utcKeys.contains key) then some ⟨d, {e.key}, {e.id}⟩
        else some ⟨⟨d.wall, some (.fixed 0)⟩, {e.key}, {e.id}⟩
      | none => firstCandFor key t
    else firstCandFor key t

/-- Python `DateTimeAndZoneMergeStep._get_candidate`.  The pair branch calls
`_get_value_from_key_and_entries`, which returns `ent.value` — an attribute
`MetadataEntry` does not define — so it raises `AttributeError` as soon as an
entry with either pair key exists; with no such entry both lookups yield
`None` and the branch returns `None`.  The remainder of the pair branch in
the source (the `±HH:MM` offset parse) is therefore unreachable. -/
def getCandidate (key : DTKey) (entries : List MetadataEntry) :
    Except String (Option Cand) :=
  match key with
  | .single k => .ok (firstCandFor k entries)
  | .pair k1 k2 =>
    if entries.any (fun e => e.key == k1) || entries.any (fun e => e.key == k2) then
      .error "AttributeError: MetadataEntry object has no attribute value"
    else .ok none

/-- Python `DateTimeAndZoneMergeStep._get_candidate_container` (tolerance 20 s). -/
def getCandidateContainer (E : TZEnv) (keys : List DTKey)
    (entries : List MetadataEntry) : Except String (List Cand) :=
  keys.foldlM
    (fun cs k => do
      match ← getCandidate k entries with
      | some c => pure (addCandidate E 20 cs c)
      | none => pure cs)
    []

/-- Python `_pre_resolve_google_xmp_utc_heuristic`: if unmerged Google and XMP
candidates both claim offset zero but differ on local time, demote the XMP
candidate to naive (in-place mutation, modelled as list update). -/
def preResolveGoogleXmp (E : TZEnv) (cs : List Cand) : List Cand :=
  let aware := awareCands cs
  match aware.find? (fun c => c.keys == {"google:photoTakenTime"}),
      aware.find? (fun c => c.keys == {"XMP:DateTimeOriginal"}) with
  | some g, some x =>
    if (g.rep.utcoffset E == some 0) && (x.rep.utcoffset E == some 0) then
      if g.rep.wall ≠ x.rep.wall then
        cs.map (fun c => if c = x then { c with rep := c.rep.replaceTZ none } else c)
      else cs
    else cs
  | _, _ => cs

/-- Python `_get_filename_date_candidates` (container tolerance 60 s): returns the
possibly updated context and `None` on a multi-date conflict, else the
candidate list. -/
def getFilenameDateCandidates (E : TZEnv) (dateType : String) (ctx : Ctx) :
    Ctx × Option (List Cand) :=
  let entries := ctx.getEntriesByKeys ["google:title", "exiftool:SourceFile"]
  let container :=
    entries.foldl
      (fun cs e =>
        match e.value_str with
        | some s =>
          if s = "" then cs
          else
            match detectDateFromFileName s with
            | some d => addCandidate E 60 cs ⟨d, {e.key}, {e.id}⟩
            | none => cs
        | none => cs)
      []
  if container.length > 1 then
    (ctx.recordConflict dateType (.filenameMultipleDates container), none)
  else (ctx, some container)

/-- Python `DateTimeAndZoneMergeStep.infer_timezone`: the external
`TimezoneFinder`/`ZoneInfo` lookup (wrapped in `try/except` in the source),
modelled by the total environment function. -/
def inferTimezone (E : TZEnv) (ctx : Ctx) : Option Nat :=
  match ctx.getValue "gps_latitude", ctx.getValue "gps_longitude" with
  | some lat, some lon => E.tzAt lat lon
  | _, _ => none

/-- The aware-candidate selection of `_resolve_with_aware` (its steps 0–1):
one candidate is the primary; of exactly two, the non-UTC one is preferred
when exactly one is UTC; anything else records a conflict. -/
def selectPrimaryAware (dateType : String) (ctx : Ctx) (aware : List Cand) :
    Ctx × Option Cand :=
  match aware with
  | [] => (ctx.recordConflict dateType .noAwareCandidates, none)
  | [c] => (ctx, some c)
  | [c1, c2] =>
    let nonUtc := [c1, c2].filter (fun c => !c.rep.isUTC)
    if ([c1, c2].filter (fun c => c.rep.isUTC)).length = 1 ∧ nonUtc.length = 1 then
      (ctx, some (nonUtc.headD c1))
    else (ctx.recordConflict dateType (.multipleAware [c1, c2]), none)
  | _ => (ctx.recordConflict dateType (.multipleAware aware), none)

/-- Python `_infer_timezone_offset_from_naive_candidates`, inner loop: collect the
rounded offsets (a Python set, determinised as a duplicate-free list) or
record a conflict.  `total_seconds() % 1800` is a nonnegative float
remainder, i.e. `emod`. -/
def inferOffsetLoop (dateType : String) (ctx : Ctx) (utcWall : Int) :
    List Cand → List Int → (Ctx × Option (List Int))
  | [], offs => (ctx, some offs)
  | nc :: t, offs =>
    let off := nc.rep.wall - utcWall
    if ¬(-43200 ≤ off ∧ off ≤ 50400) then
      (ctx.recordConflict dateType (.invalidImpliedOffset nc off), none)
    else
      let dist := off % 1800
      if 60 < dist ∧ dist < 1740 then
        (ctx.recordConflict dateType (.offsetNot30Min nc off), none)
      else
        let off2 := if dist ≤ 900 then off - dist else off + (1800 - dist)
        inferOffsetLoop dateType ctx utcWall t
          (if offs.contains off2 then offs else offs ++ [off2])

/-- Python `_infer_timezone_offset_from_naive_candidates`. -/
def inferOffset (E : TZEnv) (dateType : String) (ctx : Ctx) (aware : Cand)
    (naive : List Cand) : Ctx × Option Int :=
  let utcWall := (aware.rep.astimezone E (.fixed 0)).wall
  match inferOffsetLoop dateType ctx utcWall naive [] with
  | (ctx, none) => (ctx, none)
  | (ctx, some offs) =>
    if offs.length = 1 then (ctx, some (offs.headD 0))
    else if offs.length = 2 ∧ offs.contains 0 then
      (ctx, some ((offs.filter (fun o => o ≠ 0)).headD 0))
    else
      (ctx.recordConflict dateType (.multipleImpliedOffsets naive (pySorted intLt offs)),
        none)

/-- The final validation loop of `_validate_aware_against_naive`. -/
def validateLoop (dateType : String) (ctx : Ctx) (localWall utcWall : Int)
    (skip : Option Cand) : List Cand → Ctx × Bool
  | [] => (ctx, true)
  | nc :: t =>
    if skip == some nc then validateLoop dateType ctx localWall utcWall skip t
    else if |nc.rep.wall - localWall| ≤ 60 then
      validateLoop dateType ctx localWall utcWall skip t
    else if |nc.rep.wall - utcWall| ≤ 60 then
      validateLoop dateType ctx localWall utcWall skip t
    else (ctx.recordConflict dateType (.naiveMismatch nc), false)

/-- Python `_validate_aware_against_naive`.  Candidate keys are strings (see
`Cand`), so only the string arm of the source's tuple/string `startswith`
tests is live. -/
def validateAware (E : TZEnv) (dateType : String) (ctx : Ctx) (aware : Cand)
    (naive : List Cand) : Ctx × Bool :=
  let utcWall := (aware.rep.astimezone E (.fixed 0)).wall
  if "google:photoTakenTime" ∈ aware.keys
      ∧ (∀ nc ∈ naive, ∃ k ∈ nc.keys, (k.startsWith "EXIF" || k.startsWith "XMP") = true)
      ∧ (∀ nc ∈ naive, |nc.rep.wall - utcWall| ≤ 86400) then
    (ctx, true)
  else
    let skip :=
      naive.foldl
        (fun acc nc =>
          if nc.keys ⊆ ({"exiftool:SourceFile", "google:title"} : Finset String)
              ∧ (∃ k ∈ aware.keys,
                  (k.startsWith "EXIF" || k.startsWith "XMP" ||
                    k.startsWith "google:photoTakenTime") = true)
              ∧ |nc.rep.wall - utcWall| ≤ 86400 then
            some nc
          else acc)
        none
    validateLoop dateType ctx aware.rep.wall utcWall skip naive

/-- The tail of `_resolve_with_aware` after the GPS cross-check (its steps
3–4): return the primary, or infer an offset from the filtered naive
candidates while the primary is still assumed UTC (a zero offset is falsy
and yields `None`), or validate the naive candidates against the primary. -/
def resolveAwareTail (E : TZEnv) (dateType : String) (ctx : Ctx) (primary : Cand)
    (assumedUtc : Bool) (naive : List Cand) : Ctx × Option PyDT :=
  if naive.isEmpty then (ctx, some primary.rep)
  else
    let filtered :=
      naive.filter (fun nc =>
        !(nc.keys ⊆ ({"exiftool:SourceFile", "google:title"} : Finset String) : Bool))
    if assumedUtc && !filtered.isEmpty then
      match inferOffset E dateType ctx primary filtered with
      | (ctx, some off) =>
        if off ≠ 0 then (ctx, some (primary.rep.astimezone E (.fixed off)))
        else (ctx, none)
      | (ctx, none) => (ctx, none)
    else if !assumedUtc then
      match validateAware E dateType ctx primary naive with
      | (ctx, true) => (ctx, some primary.rep)
      | (ctx, false) => (ctx, none)
    else (ctx, some primary.rep)

/-- The GPS cross-check of `_resolve_with_aware` (its step 2) followed by the
tail.  Truthiness: a zero `timedelta` is falsy, so the "within two hours"
branch requires both offsets nonzero. -/
def resolveAwareWithPrimary (E : TZEnv) (dateType : String) (ctx : Ctx)
    (primary : Cand) (naive : List Cand) (tzOpt : Option Nat) : Ctx × Option PyDT :=
  let assumedUtc :=
    primary.rep.isUTC && decide (primary.keys ∩ utcKeysFinset = primary.keys)
  match tzOpt with
  | none => resolveAwareTail E dateType ctx primary assumedUtc naive
  | some z =>
    if assumedUtc then
      resolveAwareTail E dateType ctx
        { primary with rep := primary.rep.astimezone E (.zone z) } false naive
    else
      let actual := primary.rep.utcoffset E
      let expected := E.zoneAtWall z primary.rep.wall
      if (match actual with
          | some a => decide (a ≠ 0 ∧ expected ≠ 0 ∧ |a - expected| ≤ 7200)
          | none => false) = true then
        resolveAwareTail E dateType ctx primary assumedUtc naive
      else if primary.rep.isUTC ∧ expected ≠ 0 then
        resolveAwareTail E dateType ctx
          { primary with rep := primary.rep.astimezone E (.zone z) } assumedUtc naive
      else if actual ≠ some expected then
        (ctx.recordConflict dateType (.gpsOffsetMismatch actual (some expected)), none)
      else resolveAwareTail E dateType ctx primary assumedUtc naive

/-- Python `DateTimeAndZoneMergeStep._resolve_with_aware`. -/
def resolveWithAware (E : TZEnv) (dateType : String) (ctx : Ctx)
    (aware naive : List Cand) (tzOpt : Option Nat) : Ctx × Option PyDT :=
  match selectPrimaryAware dateType ctx aware with
  | (ctx, none) => (ctx, none)
  | (ctx, some primary) => resolveAwareWithPrimary E dateType ctx primary naive tzOpt

/-- Python `DateTimeAndZoneMergeStep._handle_naive_pair_with_gps`. -/
def handleNaivePairWithGps (E : TZEnv) (dateType : String) (ctx : Ctx)
    (c1 c2 : Cand) (z : Nat) : Ctx × Option PyDT :=
  let t1 := c1.rep
  let t2 := c2.rep
  let conv1 := (t1.replaceTZ (some (.fixed 0))).astimezone E (.zone z)
  if |conv1.wall - t2.wall| < 5 then (ctx, some conv1)
  else
    let conv2 := (t2.replaceTZ (some (.fixed 0))).astimezone E (.zone z)
    if |conv2.wall - t1.wall| < 5 then (ctx, some conv2)
    else (ctx.recordConflict dateType (.naivePairUnexplained t1 t2), none)

/-- Localize a committed naive value to the GPS zone if one was inferred
(`single_value.replace(tzinfo=inferred_tz)`). -/
def localizeOpt (d : PyDT) (tzOpt : Option Nat) : PyDT :=
  match tzOpt with
  | some z => d.replaceTZ (some (.zone z))
  | none => d

/-- Python `DateTimeAndZoneMergeStep._resolve_with_naive_only`. -/
def resolveWithNaiveOnly (E : TZEnv) (dateType : String) (ctx : Ctx)
    (naive : List Cand) (tzOpt : Option Nat) : Ctx × Option PyDT :=
  match naive, tzOpt with
  | [], _ => (ctx, none)
  | [c], tz => (ctx, some (localizeOpt c.rep tz))
  | [c1, c2], some z => handleNaivePairWithGps E dateType ctx c1 c2 z
  | _, _ =>
    let loose := naive.foldl (addCandidate E 3660) []
    match loose with
    | [c] => (ctx, some (localizeOpt c.rep tzOpt))
    | _ => (ctx.recordConflict dateType (.multipleNaive naive), none)

/-- Python `DateTimeAndZoneMergeStep.process` for one date type. -/
def dtzProcess (E : TZEnv) (dateType : String) (ctx : Ctx) : Except String Ctx := do
  let cont0 ← getCandidateContainer E (getMetadataKeys dateType) ctx.entries
  let cont1 := preResolveGoogleXmp E cont0
  let (ctx, cont2) :=
    if dateType = "taken" then
      match getFilenameDateCandidates E dateType ctx with
      | (ctx', none) => (ctx', cont1)
      | (ctx', some fcs) =>
        (ctx', if fcs.isEmpty then cont1 else fcs.foldl (addCandidate E 20) cont1)
    else (ctx, cont1)
  let tz := inferTimezone E ctx
  let aware := awareCands cont2
  let naive := naiveCands cont2
  let (ctx, value) :=
    if aware.isEmpty then resolveWithNaiveOnly E dateType ctx naive tz
    else resolveWithAware E dateType ctx aware naive tz
  match value with
  | some v => pure (ctx.setValue dateType (.dtArg (.dt v) dateType))
  | none => pure ctx

-- The fallback cascade.

/-- Python truthiness of a stored value (`if fallback_arg:` and friends):
empty strings and zero floats are falsy, datetimes are always truthy. -/
def truthyPVal : PVal → Bool
  | .s v => v ≠ ""
  | .dt _ => true
  | .r q => q ≠ 0

/-- Python `FallbackDateToGpsDateTimeStep.process`: if `taken` is neither finalized
nor in conflict, commit the finalized `Composite:GPSDateTime` (when it is a
datetime), localized through the external timezone lookup.  The
`required=True` read's `RuntimeError` is caught, so an unfinalized field
reads as `None`. -/
def fallbackDateToGpsDateTime (E : TZEnv) (ctx : Ctx) : Ctx :=
  if !(ctx.finalized.contains "taken") && !(ctx.conflictKeys.contains "taken") then
    let gpsArg :=
      if ctx.finalized.contains "Composite:GPSDateTime" then
        ctx.getValue "Composite:GPSDateTime"
      else none
    match gpsArg with
    | some (.dt d) =>
      let tz :=
        match ctx.getValue "gps_latitude", ctx.getValue "gps_longitude" with
        | some lat, some lon => E.tzAt lat lon
        | _, _ => none
      let d2 :=
        match tz with
        | some z => d.astimezone E (.zone z)
        | none => d
      ctx.setValue "taken" (.dtArg (.dt d2) "taken")
    | _ => ctx
  else ctx

/-- Python `FallbackDateTimeStep.process` for `field_name`/`fallback_key`.
`get_value` has already unwrapped the stored argument, so the
`isinstance(..., DateTimeArgument)` test is always false and the raw value is
used as-is; a falsy value is not committed. -/
def fallbackDateTimeStep (fieldName fallbackKey : String) (ctx : Ctx) : Ctx :=
  if ctx.finalized.contains fieldName then ctx
  else if ctx.conflictKeys.contains fieldName then ctx
  else if !(ctx.finalized.contains fallbackKey) then ctx
  else
    match ctx.getValue fallbackKey with
    | some v => if truthyPVal v then ctx.setValue fieldName (.dtArg v fieldName) else ctx
    | none => ctx

/-- The filename loop of `FallbackRoughDateFromFilename.process`: first
filename whose leftmost `YYYYMMDD` match is a valid calendar date commits
noon on that date to both fields; a `ValueError` moves to the next
filename. -/
def roughLoop (ctx : Ctx) : List String → Ctx
  | [] => ctx
  | f :: t =>
    match roughSearch f.toList with
    | some (y, mo, d) =>
      if d ≤ daysInMonth y mo then
        let noon : PyDT := ⟨mkWall y mo d 12 0 0, none⟩
        (ctx.setValue "taken" (.dtArg (.dt noon) "taken")).setValue "modified"
          (.dtArg (.dt noon) "modified")
      else roughLoop ctx t
    | none => roughLoop ctx t

/-- Python `FallbackRoughDateFromFilename.process`. -/
def fallbackRoughDateFromFilename (ctx : Ctx) : Ctx :=
  if ctx.finalized.contains "taken" || ctx.conflictKeys.contains "taken" then ctx
  else if ctx.finalized.contains "modified" || ctx.conflictKeys.contains "modified" then ctx
  else
    let filenames :=
      (ctx.getEntriesByKeys ["google:title", "exiftool:SourceFile"]).filterMap
        (fun e =>
          match e.value_str with
          | some s =>
            if s = "" then none
            else if e.key = "exiftool:SourceFile" then some (pathBase s) else some s
          | none => none)
    roughLoop ctx filenames

/-- Python `FallbackFileModifyDateStep.process`. -/
def fallbackFileModifyDate (ctx : Ctx) : Ctx :=
  if ctx.finalized.contains "taken" || ctx.conflictKeys.contains "taken" then ctx
  else if ctx.finalized.contains "modified" || ctx.conflictKeys.contains "modified" then ctx
  else
    match ctx.getEntriesByKeys ["File:FileModifyDate"] with
    | [] => ctx
    | e :: _ =>
      match e.value_dt with
      | some d =>
        (ctx.setValue "taken" (.dtArg (.dt d) "taken")).setValue "modified"
          (.dtArg (.dt d) "modified")
      | none => ctx

/-- Python `timedelta.days` of an absolute difference of wall readings
(`abs(a - b).days > 4` is floor-division of nonnegative seconds). -/
def absDiffDays (a b : Int) : Nat := (a - b).natAbs / 86400

/-- Python `WhatsappDateCorrectionStep.process`.  `get_value` has already unwrapped
the stored `DateTimeArgument`, so the step's `isinstance(mod_arg,
DateTimeArgument)` test is always false, `mod_date` is always `None`, and
`modified` is overridden whenever `taken` is.  A truthy non-datetime `taken`
would crash on `.replace(tzinfo=None)`, modelled as an error. -/
def whatsappStep (ctx : Ctx) : Except String Ctx :=
  let current := ctx.getValue "taken"
  match waScan (ctx.getEntriesByKeys ["google:title", "exiftool:SourceFile"]) with
  | none => .ok ctx
  | some wa =>
    let shouldOverride : Except String Bool :=
      match current with
      | none => .ok true
      | some (.dt c) => .ok (absDiffDays c.wall wa.wall > 4)
      | some v => if truthyPVal v then .error "TypeError: replace" else .ok true
    do
      if ← shouldOverride then
        let ctx := ctx.setValue "taken" (.dtArg (.dt wa) "taken")
        let modDate : Option PyDT := none
        match modDate with
        | none => pure (ctx.setValue "modified" (.dtArg (.dt wa) "modified"))
        | some md =>
          if absDiffDays md.wall wa.wall > 4 then
            pure (ctx.setValue "modified" (.dtArg (.dt wa) "modified"))
          else pure ctx
      else pure ctx

-- `MergePipeline`.

/-- Python `MergePipeline.get_default_pipeline`: the ten steps in order, each
lifted into the error monad (only the date-time steps and the WhatsApp step
can raise). -/
def defaultSteps (E : TZEnv) : List (Ctx → Except String Ctx) :=
  [fun c => .ok (gpsMergeStep c),
    fun c => .ok (gpsDateTimeStep E c),
    dtzProcess E "taken",
    dtzProcess E "modified",
    fun c => .ok (fallbackDateToGpsDateTime E c),
    fun c => .ok (fallbackDateTimeStep "modified" "taken" c),
    fun c => .ok (fallbackDateTimeStep "taken" "modified" c),
    fun c => .ok (fallbackFileModifyDate c),
    fun c => .ok (fallbackRoughDateFromFilename c),
    whatsappStep]

/-- Python `MergePipeline.run` over flattened sources. -/
def runPipeline (E : TZEnv) (sources : List (List MetadataEntry)) : Except String Ctx :=
  (defaultSteps E).foldlM (fun c s => s c) ⟨sources.flatten, [], [], []⟩

/-- The pipeline stopped just before its last step (the WhatsApp
correction). -/
def runPrefix9 (E : TZEnv) (sources : List (List MetadataEntry)) : Except String Ctx :=
  ((defaultSteps E).take 9).foldlM (fun c s => s c) ⟨sources.flatten, [], [], []⟩

-- Notions used to state the claims.

/-- A concrete timezone environment for evaluating closed statements: every
zone is UTC, the system zone is UTC, and the external coordinate lookup
finds no zone. -/
def E0 : TZEnv := ⟨fun _ _ => 0, fun _ _ => 0, fun _ => 0, fun _ _ => none⟩

/-- Python `==` on datetimes: equal awareness and equal comparison key
(wall reading for naive values, UTC instant for aware ones). -/
def pyDTEq (E : TZEnv) (a b : PyDT) : Prop :=
  a.isAware = b.isAware ∧ a.cmpKey E = b.cmpKey E

/-- Two clusters with Python-equal representative values and the same key
and id sets. -/
def candEquiv (E : TZEnv) (c1 c2 : Cand) : Prop :=
  pyDTEq E c1.rep c2.rep ∧ c1.keys = c2.keys ∧ c1.ids = c2.ids

/-- Two cluster lists describe the same set of clusters. -/
def clusterSetEquiv (E : TZEnv) (l1 l2 : List Cand) : Prop :=
  l1.length = l2.length ∧ (∀ c ∈ l1, ∃ c' ∈ l2, candEquiv E c c') ∧
    (∀ c' ∈ l2, ∃ c ∈ l1, candEquiv E c c')

/-- The container invariant: no two held candidates match. -/
def noTwoMatch (E : TZEnv) (tol : Int) (l : List Cand) : Prop :=
  l.Pairwise (fun a b => isMatch E tol a b = false)

/-- The claim's reading of an entry's non-null value (stated from the
claim's words, for comparison with the source's truthiness-based coalesce):
the first populated typed slot. -/
def specEntryValue (e : MetadataEntry) : Option PVal :=
  match e.value_str with
  | some s => some (.s s)
  | none =>
    match e.value_dt with
    | some d => some (.dt d)
    | none => e.value_real.map .r

/-- The claim's distinct non-null values for a key. -/
def specDistinctNonNull (ctx : Ctx) (key : String) : List PVal :=
  dedupFirst ((ctx.getEntriesByKeys [key]).filterMap specEntryValue)

/-- A rational given directly by numerator and denominator (kernel-reducible
form of small non-integer constants used in concrete inputs). -/
def ratLit (n : Int) (d : Nat) (h1 : d ≠ 0) (h2 : n.natAbs.Coprime d) : Rat :=
  ⟨n, d, h1, h2⟩

-- Concrete inputs used by witnesses and counterexamples.

/-- A context whose primary latitude tags conflict (0 vs 1 degree). -/
def ctxGpsConflict : Ctx :=
  ⟨[⟨1, "Composite:GPSLatitude", none, none, some 0⟩,
      ⟨2, "Composite:GPSLatitude", none, none, some 1⟩], [], [], []⟩

/-- A context with sidecar latitude data only. -/
def ctxGpsEmpty : Ctx :=
  ⟨[⟨1, "google:geoDataLatitude", none, none, some 1⟩], [], [], []⟩

/-- A context whose only entry for key `k` carries the empty string, a
non-null value that Python's truthiness-based coalesce drops. -/
def ctxEmptyStr : Ctx := ⟨[⟨1, "k", some "", none, none⟩], [], [], []⟩

/-- A context with one distinct value for key `k` from two entries. -/
def ctxOneVal : Ctx :=
  ⟨[⟨1, "k", some "a", none, none⟩, ⟨2, "k", some "a", none, none⟩], [], [], []⟩

/-- A context with two distinct values for key `k`. -/
def ctxTwoVals : Ctx :=
  ⟨[⟨1, "k", some "b", none, none⟩, ⟨2, "k", some "a", none, none⟩], [], [], []⟩

/-- A context with two aware datetime entries for key `k` whose values are
Python-equal (`12:00+02:00 == 10:00+00:00`, one UTC instant) though
structurally different. -/
def ctxInstantEq : Ctx :=
  ⟨[⟨1, "k", none, some ⟨43200, some (.fixed 7200)⟩, none⟩,
    ⟨2, "k", none, some ⟨36000, some (.fixed 0)⟩, none⟩], [], [], []⟩

/-- Python `9e-7` degrees. -/
def microPos : Rat := ratLit 9 10000000 (by norm_num) (by norm_num)

/-- Python `-9e-7` degrees. -/
def microNeg : Rat := ratLit (-9) 10000000 (by norm_num) (by norm_num)

/-- Latitude entries 0, 9e-7 and -9e-7: each is within tolerance of the
reference 0, but the outer pair is 1.8e-6 apart. -/
def ctxGpsTriangle : Ctx :=
  ⟨[⟨1, "Composite:GPSLatitude", none, none, some 0⟩,
      ⟨2, "Composite:GPSLatitude", none, none, some microPos⟩,
      ⟨3, "Composite:GPSLatitude", none, none, some microNeg⟩], [], [], []⟩

/-- An aware candidate carrying the UTC singleton. -/
def candUTC : Cand := ⟨⟨0, some (.fixed 0)⟩, {"google:photoTakenTime"}, {1}⟩

/-- An aware candidate at a +01:00 fixed offset. -/
def candLocal : Cand := ⟨⟨3600, some (.fixed 3600)⟩, {"XMP:DateTimeOriginal"}, {2}⟩

/-- A second UTC-offset aware candidate. -/
def candUTC2 : Cand := ⟨⟨9000, some (.fixed 0)⟩, {"QuickTime:CreateDate"}, {3}⟩

/-- The empty context used to instantiate resolver witnesses. -/
def ctxNil : Ctx := ⟨[], [], [], []⟩

/-- A naive candidate at wall reading 0. -/
def candN0 : Cand := ⟨⟨0, none⟩, {"EXIF:CreateDate"}, {1}⟩

/-- A naive candidate 10000 seconds later. -/
def candNFar : Cand := ⟨⟨10000, none⟩, {"XMP:CreateDate"}, {2}⟩

/-- A third naive candidate, far from both. -/
def candNFar2 : Cand := ⟨⟨100000, none⟩, {"google:title"}, {3}⟩

/-- A context with a resolved January `taken` date and a June WhatsApp
filename. -/
def ctxWA : Ctx :=
  ⟨[⟨3, "exiftool:SourceFile", some "IMG-20230615-WA0001.jpg", none, none⟩],
    [("taken", .dtArg (.dt ⟨mkWall 2023 1 1 12 0 0, none⟩) "taken")], [],
    ["taken"]⟩

/-- A context with `taken` finalized and `modified` in conflict. -/
def ctxFrame : Ctx :=
  ⟨[⟨1, "File:FileModifyDate", none, some ⟨0, none⟩, none⟩],
    [("taken", .dtArg (.dt ⟨0, none⟩) "taken")], [("modified", [.noAwareCandidates])],
    ["taken"]⟩

/-- A naive candidate at 0 seconds. -/
def candT0 : Cand := ⟨⟨0, none⟩, {"a"}, {1}⟩

/-- A naive candidate at 4 seconds. -/
def candT4 : Cand := ⟨⟨4, none⟩, {"b"}, {2}⟩

/-- A naive candidate at 8 seconds. -/
def candT8 : Cand := ⟨⟨8, none⟩, {"c"}, {3}⟩

/-- Two naive capture dates two days apart (an unresolvable naive conflict)
plus a WhatsApp-style source filename. -/
def sampleEntries : List MetadataEntry :=
  [⟨1, "XMP:CreateDate", none, some ⟨mkWall 2023 1 1 10 0 0, none⟩, none⟩,
    ⟨2, "EXIF:CreateDate", none, some ⟨mkWall 2023 1 3 10 0 0, none⟩, none⟩,
    ⟨3, "exiftool:SourceFile", some "IMG-20230615-WA0001.jpg", none, none⟩]

-- Helper lemmas.

theorem ratLit_eq_div (n : Int) (d : Nat) (h1 : d ≠ 0) (h2 : n.natAbs.Coprime d) :
    ratLit n d h1 h2 = (n : Rat) / (d : Nat) := by
  rw [ratLit, Rat.mk'_eq_divInt, Rat.divInt_eq_div]
  norm_num

theorem setValue_conflicts (ctx : Ctx) (f : String) (v : MVal) :
    (ctx.setValue f v).conflicts = ctx.conflicts := rfl

theorem setValue_entries (ctx : Ctx) (f : String) (v : MVal) :
    (ctx.setValue f v).entries = ctx.entries := rfl

theorem recordConflict_merged (ctx : Ctx) (f : String) (m : Msg) :
    (ctx.recordConflict f m).merged = ctx.merged := rfl

theorem recordConflict_finalized (ctx : Ctx) (f : String) (m : Msg) :
    (ctx.recordConflict f m).finalized = ctx.finalized := rfl

theorem setValue_finalized_contains (ctx : Ctx) (f g : String) (v : MVal)
    (h : (ctx.setValue f v).finalized.contains g = true) :
    ctx.finalized.contains g = true ∨ g = f := by
  by_cases hf : ctx.finalized.contains f
  · simp only [Ctx.setValue, hf, if_pos] at h
    exact Or.inl h
  · simp only [Ctx.setValue, hf] at h
    rcases List.mem_of_elem_eq_true h |> List.mem_append.mp with hg | hg
    · exact Or.inl (List.elem_eq_true_of_mem hg)
    · exact Or.inr (List.mem_singleton.mp hg)

theorem gpsValues_of_entries_nil {ctx : Ctx} {tags : List String}
    (h : ctx.getEntriesByKeys tags = []) : gpsValues ctx tags = [] := by
  simp [gpsValues, h, dedupFirst]

theorem mergeValuesFromTags_eq_none_iff (ctx : Ctx) (key : String)
    (tags : List String) :
    mergeValuesFromTags ctx key tags = (none, none) ↔ gpsValues ctx tags = [] := by
  unfold mergeValuesFromTags
  by_cases he : (ctx.getEntriesByKeys tags).isEmpty
  · simp [he, gpsValues_of_entries_nil (List.isEmpty_iff.mp he)]
  · simp only [he, Bool.false_eq_true, if_false]
    cases hv : gpsValues ctx tags with
    | nil => simp
    | cons ref rest =>
      by_cases hc : (rest.filter (fun v => !rulesCompare key ref v)).isEmpty <;>
        simp [hc]

/-- C1: for each GPS axis, the secondary (sidecar) tags are consulted if and
only if the primary composite-EXIF stage yielded zero non-null values: a
primary-stage conflict records the conflict and leaves the axis uncommitted
(merged data and finalized fields unchanged) without touching the secondary
stage, a primary-stage value commits immediately, and only an empty primary
value set falls through to the secondary stage. -/
theorem gps_secondary_iff_primary_empty (ctx : Ctx) (key finalTag : String)
    (prim sec : List String) :
    (mergeValuesFromTags ctx key prim = (none, none) ↔ gpsValues ctx prim = [])
    ∧ (∀ m, mergeValuesFromTags ctx key prim = (none, some m) →
        processCoordinate ctx key prim sec finalTag
          = ctx.recordConflict key (.gpsStageConflict true m)
        ∧ (processCoordinate ctx key prim sec finalTag).merged = ctx.merged
        ∧ (processCoordinate ctx key prim sec finalTag).finalized = ctx.finalized)
    ∧ (∀ v, mergeValuesFromTags ctx key prim = (some v, none) →
        processCoordinate ctx key prim sec finalTag
          = ctx.setValue key (.simpleArg finalTag (.s (ratStr v))))
    ∧ (gpsValues ctx prim = [] →
        processCoordinate ctx key prim sec finalTag
          = processCoordinateStage2 ctx key sec finalTag) := by
  refine ⟨mergeValuesFromTags_eq_none_iff ctx key prim, ?_, ?_, ?_⟩
  · intro m h
    refine ⟨?_, ?_, ?_⟩ <;> simp [processCoordinate, h, recordConflict_merged,
      recordConflict_finalized]
  · intro v h
    simp [processCoordinate, h]
  · intro h
    have h2 := (mergeValuesFromTags_eq_none_iff ctx key prim).mpr h
    simp [processCoordinate, h2]

/-- Witness for C1: on a concrete primary conflict the axis stays
unfinalized, and with no primary data the step is the secondary stage
(instantiated at a comparison key with the default equality rule, so that
the hypotheses evaluate in the kernel). -/
theorem gps_secondary_iff_primary_empty_witness :
    (processCoordinate ctxGpsConflict "k" ["Composite:GPSLatitude"]
        ["google:geoDataLatitude"] "GPSLatitude").finalized = ctxGpsConflict.finalized
    ∧ processCoordinate ctxGpsEmpty "k" ["Composite:GPSLatitude"]
        ["google:geoDataLatitude"] "GPSLatitude"
      = processCoordinateStage2 ctxGpsEmpty "k" ["google:geoDataLatitude"]
          "GPSLatitude" :=
  ⟨((gps_secondary_iff_primary_empty ctxGpsConflict "k" "GPSLatitude"
      ["Composite:GPSLatitude"] ["google:geoDataLatitude"]).2.1
      (.gpsNotClose [0, 1] [1, 2]) (by decide)).2.2,
    (gps_secondary_iff_primary_empty ctxGpsEmpty "k" "GPSLatitude"
      ["Composite:GPSLatitude"] ["google:geoDataLatitude"]).2.2.2 (by decide)⟩

-- C6: basic field merge.

/-- The Python set collapses aware datetime values with equal UTC instants
into one element, so two entries reading `12:00+02:00` and `10:00+00:00`
yield one distinct value and the step commits the first-inserted
representative (independent of the C6 claim theorem; a direct evaluation of
the step). -/
theorem basicFieldMerge_instant_collapse :
    distinctValues E0 ctxInstantEq "k" = [.dt ⟨43200, some (.fixed 7200)⟩]
    ∧ basicFieldMerge E0 "k" true ctxInstantEq
      = ctxInstantEq.setValue "k"
          (.simpleArg "k" (.dt ⟨43200, some (.fixed 7200)⟩)) := by
  exact ⟨by decide, by decide⟩

/-- Counterexample to C6: a single distinct non-null value (the empty
string) is neither committed nor conflicted — the whole step is the
identity, so the claim's "exactly one distinct non-null value commits that
value" fails at this input. -/
theorem basic_merge_nonnull_cx :
    specDistinctNonNull ctxEmptyStr "k" = [.s ""]
    ∧ basicFieldMerge E0 "k" true ctxEmptyStr = ctxEmptyStr
    ∧ (basicFieldMerge E0 "k" true ctxEmptyStr).finalized = []
    ∧ (basicFieldMerge E0 "k" true ctxEmptyStr).conflicts = [] := by
  refine ⟨by decide, by decide, by decide, by decide⟩

/-- C6 (amended: a value counts only when truthy — non-null and, for
strings, non-empty; a trailing zero float still counts — and values are
distinct up to Python `==`, which identifies aware datetimes by UTC
instant): with zero distinct truthy values the step does nothing; with
exactly one it commits that value (wrapped as an export argument when
configured) and records no conflict; with two or more it records a conflict
listing the sorted distinct values and the contributing entry ids and
commits nothing. -/
theorem basic_merge_cases (E : TZEnv) (ctx : Ctx) (key : String) (genArg : Bool) :
    (distinctValues E ctx key = [] → basicFieldMerge E key genArg ctx = ctx)
    ∧ (∀ v, distinctValues E ctx key = [v] →
        basicFieldMerge E key genArg ctx
          = ctx.setValue key (if genArg then .simpleArg key v else .raw v)
        ∧ (basicFieldMerge E key genArg ctx).conflicts = ctx.conflicts)
    ∧ (∀ v1 v2 t, distinctValues E ctx key = v1 :: v2 :: t →
        basicFieldMerge E key genArg ctx
          = ctx.recordConflict key
              (.conflictingValues (pySorted pvalLt (v1 :: v2 :: t))
                (((ctx.getEntriesByKeys [key]).filter
                    (fun e => e.coalesce.isSome)).map (·.id)))
        ∧ (basicFieldMerge E key genArg ctx).merged = ctx.merged
        ∧ (basicFieldMerge E key genArg ctx).finalized = ctx.finalized) := by
  have hd : ∀ l : List PVal,
      dedupFirstBy (pvalEqB E)
          ((ctx.getEntriesByKeys [key]).filterMap MetadataEntry.coalesce) = l ↔
        distinctValues E ctx key = l := by
    intro l; exact Iff.rfl
  refine ⟨?_, ?_, ?_⟩
  · intro h
    simp [basicFieldMerge, (hd []).mpr h]
  · intro v h
    constructor <;> simp [basicFieldMerge, (hd [v]).mpr h, setValue_conflicts]
  · intro v1 v2 t h
    refine ⟨?_, ?_, ?_⟩ <;>
      simp [basicFieldMerge, (hd (v1 :: v2 :: t)).mpr h, recordConflict_merged,
        recordConflict_finalized]

/-- Witness for the amended C6 at concrete inputs: one distinct value is
committed, two distinct values yield the sorted-values conflict. -/
theorem basic_merge_cases_witness :
    (basicFieldMerge E0 "k" true ctxOneVal
      = ctxOneVal.setValue "k" (.simpleArg "k" (.s "a"))
      ∧ (basicFieldMerge E0 "k" true ctxOneVal).conflicts = ctxOneVal.conflicts)
    ∧ basicFieldMerge E0 "k" true ctxTwoVals
      = ctxTwoVals.recordConflict "k"
          (.conflictingValues [.s "a", .s "b"] [1, 2]) := by
  constructor
  · have h := (basic_merge_cases E0 ctxOneVal "k" true).2.1 (.s "a") (by decide)
    simpa using h
  · have h := (basic_merge_cases E0 ctxTwoVals "k" true).2.2 (.s "b") (.s "a") [] (by decide)
    exact h.1.trans (by decide)

-- C7: the GPS closeness rule is reference-based, not pairwise.

theorem microPos_ne_zero : microPos ≠ 0 := by norm_num [microPos, ratLit_eq_div]

theorem microNeg_ne_zero : microNeg ≠ 0 := by norm_num [microNeg, ratLit_eq_div]

theorem microPos_ne_microNeg : microPos ≠ microNeg := by
  norm_num [microPos, microNeg, ratLit_eq_div]

theorem gpsComparator_zero_microPos : gpsComparator 0 microPos = true := by
  norm_num [gpsComparator, microPos, ratLit_eq_div, abs_le, lt_abs, abs_div]

theorem gpsComparator_zero_microNeg : gpsComparator 0 microNeg = true := by
  norm_num [gpsComparator, microNeg, ratLit_eq_div, abs_le, lt_abs, abs_div]

theorem gpsComparator_microPos_microNeg : gpsComparator microPos microNeg = false := by
  norm_num [gpsComparator, microPos, microNeg, ratLit_eq_div, abs_le, lt_abs, abs_div]

theorem gpsValues_triangle :
    gpsValues ctxGpsTriangle ["Composite:GPSLatitude"] = [0, microPos, microNeg] := by
  simp [gpsValues, Ctx.getEntriesByKeys, ctxGpsTriangle, dedupFirst, List.foldl,
    List.contains, beq_iff_eq, microPos_ne_zero, microPos_ne_zero.symm,
    microNeg_ne_zero, microNeg_ne_zero.symm, microPos_ne_microNeg,
    microPos_ne_microNeg.symm]

/-- Counterexample to C7: the stage commits a latitude although the pair
(9e-7, -9e-7) of distinct non-null values for the axis differs beyond the
tolerance — the source only compares each value against the first one, not
pairwise. -/
theorem gps_pairwise_cx :
    (processCoordinate ctxGpsTriangle "gps_latitude" ["Composite:GPSLatitude"]
        ["google:geoDataLatitude"] "GPSLatitude").finalized.contains "gps_latitude" = true
    ∧ gpsComparator microPos microNeg = false
    ∧ gpsValues ctxGpsTriangle ["Composite:GPSLatitude"] = [0, microPos, microNeg] := by
  have hm : mergeValuesFromTags ctxGpsTriangle "gps_latitude" ["Composite:GPSLatitude"]
      = (some 0, none) := by
    unfold mergeValuesFromTags
    rw [gpsValues_triangle]
    simp [ctxGpsTriangle, Ctx.getEntriesByKeys, rulesCompare,
      gpsComparator_zero_microPos, gpsComparator_zero_microNeg]
  refine ⟨?_, gpsComparator_microPos_microNeg, gpsValues_triangle⟩
  simp only [processCoordinate, hm]
  simp [Ctx.setValue, ctxGpsTriangle]

/-- C7 (amended: within one stage all distinct non-null values are compared
against a single reference value, the first distinct value; the reference is
committed if and only if every value is within the closeness tolerance of
the reference, and otherwise a conflict naming the reference, the values
differing from it and their source entry ids is recorded and nothing is
committed for the axis). -/
theorem gps_stage_reference_based (ctx : Ctx) (key finalTag : String)
    (prim sec : List String) (ref : Rat) (rest : List Rat)
    (h : gpsValues ctx prim = ref :: rest) :
    ((∀ u ∈ rest, rulesCompare key ref u = true) →
      processCoordinate ctx key prim sec finalTag
        = ctx.setValue key (.simpleArg finalTag (.s (ratStr ref))))
    ∧ (∀ far, rest.filter (fun v => !rulesCompare key ref v) = far → far ≠ [] →
      processCoordinate ctx key prim sec finalTag
        = ctx.recordConflict key
            (.gpsStageConflict true
              (.gpsNotClose (pySorted ratLt (ref :: far))
                (pySorted intLt
                  (dedupFirst
                    (((ctx.getEntriesByKeys prim).filter (fun e =>
                        match e.value_real with
                        | some v => (ref :: far).contains v
                        | none => false)).map (·.id))))))
        ∧ (processCoordinate ctx key prim sec finalTag).finalized = ctx.finalized
        ∧ (processCoordinate ctx key prim sec finalTag).merged = ctx.merged) := by
  have hne : (ctx.getEntriesByKeys prim).isEmpty = false := by
    rcases he : (ctx.getEntriesByKeys prim).isEmpty with _ | _
    · rfl
    · rw [gpsValues_of_entries_nil (List.isEmpty_iff.mp he)] at h
      exact absurd h (by simp)
  constructor
  · intro hall
    have hfilter : rest.filter (fun v => !rulesCompare key ref v) = [] := by
      rw [List.filter_eq_nil_iff]
      intro a ha
      simp [hall a ha]
    have hm : mergeValuesFromTags ctx key prim = (some ref, none) := by
      unfold mergeValuesFromTags
      rw [h]
      simp [hne, hfilter]
    simp [processCoordinate, hm]
  · intro far hfar hne2
    have hm : mergeValuesFromTags ctx key prim
        = (none, some (.gpsNotClose (pySorted ratLt (ref :: far))
            (pySorted intLt
              (dedupFirst
                (((ctx.getEntriesByKeys prim).filter (fun e =>
                    match e.value_real with
                    | some v => (ref :: far).contains v
                    | none => false)).map (·.id)))))) := by
      unfold mergeValuesFromTags
      rw [h]
      simp [hne, hfar, List.isEmpty_iff, hne2]
    refine ⟨?_, ?_, ?_⟩ <;>
      simp [processCoordinate, hm, recordConflict_finalized, recordConflict_merged]

/-- Witness for the amended C7: at the concrete triangle input every value
is within tolerance of the reference 0, so the reference is committed. -/
theorem gps_stage_reference_based_witness :
    processCoordinate ctxGpsTriangle "gps_latitude" ["Composite:GPSLatitude"]
        ["google:geoDataLatitude"] "GPSLatitude"
      = ctxGpsTriangle.setValue "gps_latitude" (.simpleArg "GPSLatitude" (.s (ratStr 0))) := by
  refine (gps_stage_reference_based ctxGpsTriangle "gps_latitude" "GPSLatitude"
      ["Composite:GPSLatitude"] ["google:geoDataLatitude"] 0 [microPos, microNeg]
      gpsValues_triangle).1 ?_
  intro u hu
  simp only [List.mem_cons, List.not_mem_nil, or_false] at hu
  rcases hu with rfl | rfl
  · simp [rulesCompare, gpsComparator_zero_microPos]
  · simp [rulesCompare, gpsComparator_zero_microNeg]

-- C2: aware-candidate selection.

/-- C2: with exactly one aware candidate it becomes the primary; with
exactly two of which exactly one has the UTC tzinfo, the non-UTC one becomes
the primary; in every other situation with two or more aware candidates the
resolver records a conflict for the field and returns no value (so the
caller commits nothing). -/
theorem dtz_aware_selection (E : TZEnv) (dateType : String) (ctx : Ctx)
    (naive : List Cand) (tzOpt : Option Nat) (c c1 c2 c3 : Cand) (rest : List Cand) :
    (selectPrimaryAware dateType ctx [c] = (ctx, some c))
    ∧ (c1.rep.isUTC = true → c2.rep.isUTC = false →
        selectPrimaryAware dateType ctx [c1, c2] = (ctx, some c2))
    ∧ (c1.rep.isUTC = false → c2.rep.isUTC = true →
        selectPrimaryAware dateType ctx [c1, c2] = (ctx, some c1))
    ∧ (c1.rep.isUTC = c2.rep.isUTC →
        resolveWithAware E dateType ctx [c1, c2] naive tzOpt
          = (ctx.recordConflict dateType (.multipleAware [c1, c2]), none))
    ∧ resolveWithAware E dateType ctx (c1 :: c2 :: c3 :: rest) naive tzOpt
        = (ctx.recordConflict dateType (.multipleAware (c1 :: c2 :: c3 :: rest)), none) := by
  refine ⟨rfl, ?_, ?_, ?_, ?_⟩
  · intro h1 h2
    simp [selectPrimaryAware, h1, h2]
  · intro h1 h2
    simp [selectPrimaryAware, h1, h2]
  · intro h
    cases hb : c1.rep.isUTC <;> rw [hb] at h <;>
      simp [resolveWithAware, selectPrimaryAware, hb, h.symm]
  · simp [resolveWithAware, selectPrimaryAware]

/-- Witness for C2: of a UTC/non-UTC pair the non-UTC candidate is selected,
and a UTC/UTC pair records the multiple-aware conflict with no value. -/
theorem dtz_aware_selection_witness :
    selectPrimaryAware "taken" ctxNil [candUTC, candLocal] = (ctxNil, some candLocal)
    ∧ resolveWithAware E0 "taken" ctxNil [candUTC, candUTC2] [] none
      = (ctxNil.recordConflict "taken" (.multipleAware [candUTC, candUTC2]), none) :=
  ⟨(dtz_aware_selection E0 "taken" ctxNil [] none candUTC candUTC candLocal candUTC
      []).2.1 (by decide) (by decide),
    (dtz_aware_selection E0 "taken" ctxNil [] none candUTC candUTC candUTC2 candUTC
      []).2.2.2.1 (by decide)⟩

-- C3: naive-only resolution.

/-- C3: with no aware candidates — zero naive candidates leave the field
untouched; one commits its value localized to the GPS zone when known; a
pair with a known GPS zone commits if and only if one value read as UTC and
re-expressed in the GPS zone lands within the 5-second window of the other
(the source uses a strict `<`), else records a conflict; more than two, or
two without a GPS zone, run one loose re-clustering pass (tolerance 1h01m)
and commit the single cluster's value if everything collapses, else record a
conflict listing the distinct naive candidates. -/
theorem dtz_naive_only (E : TZEnv) (dateType : String) (ctx : Ctx)
    (tzOpt : Option Nat) (z : Nat) (c c1 c2 c3 : Cand) (rest : List Cand) :
    (resolveWithNaiveOnly E dateType ctx [] tzOpt = (ctx, none))
    ∧ (resolveWithNaiveOnly E dateType ctx [c] tzOpt
        = (ctx, some (localizeOpt c.rep tzOpt)))
    ∧ ((resolveWithNaiveOnly E dateType ctx [c1, c2] (some z)).2.isSome = true ↔
        (|((c1.rep.replaceTZ (some (.fixed 0))).astimezone E (.zone z)).wall
            - c2.rep.wall| < 5
          ∨ |((c2.rep.replaceTZ (some (.fixed 0))).astimezone E (.zone z)).wall
              - c1.rep.wall| < 5))
    ∧ (¬(|((c1.rep.replaceTZ (some (.fixed 0))).astimezone E (.zone z)).wall
            - c2.rep.wall| < 5
          ∨ |((c2.rep.replaceTZ (some (.fixed 0))).astimezone E (.zone z)).wall
              - c1.rep.wall| < 5) →
        resolveWithNaiveOnly E dateType ctx [c1, c2] (some z)
          = (ctx.recordConflict dateType (.naivePairUnexplained c1.rep c2.rep), none))
    ∧ (∀ cm, [c1, c2].foldl (addCandidate E 3660) [] = [cm] →
        resolveWithNaiveOnly E dateType ctx [c1, c2] none
          = (ctx, some (localizeOpt cm.rep none)))
    ∧ (([c1, c2].foldl (addCandidate E 3660) []).length ≠ 1 →
        resolveWithNaiveOnly E dateType ctx [c1, c2] none
          = (ctx.recordConflict dateType (.multipleNaive [c1, c2]), none))
    ∧ (∀ cm, (c1 :: c2 :: c3 :: rest).foldl (addCandidate E 3660) [] = [cm] →
        resolveWithNaiveOnly E dateType ctx (c1 :: c2 :: c3 :: rest) tzOpt
          = (ctx, some (localizeOpt cm.rep tzOpt)))
    ∧ (((c1 :: c2 :: c3 :: rest).foldl (addCandidate E 3660) []).length ≠ 1 →
        resolveWithNaiveOnly E dateType ctx (c1 :: c2 :: c3 :: rest) tzOpt
          = (ctx.recordConflict dateType (.multipleNaive (c1 :: c2 :: c3 :: rest)),
            none)) := by
  refine ⟨rfl, rfl, ?_, ?_, ?_, ?_, ?_, ?_⟩
  · by_cases h1 : |((c1.rep.replaceTZ (some (.fixed 0))).astimezone E (.zone z)).wall
        - c2.rep.wall| < 5 <;>
      by_cases h2 : |((c2.rep.replaceTZ (some (.fixed 0))).astimezone E (.zone z)).wall
        - c1.rep.wall| < 5 <;>
      simp [resolveWithNaiveOnly, handleNaivePairWithGps, h1, h2]
  · intro h
    push_neg at h
    simp [resolveWithNaiveOnly, handleNaivePairWithGps, not_lt.mpr h.1, not_lt.mpr h.2]
  · intro cm h
    simp only [resolveWithNaiveOnly]
    rw [h]
  · intro h
    rcases hl : [c1, c2].foldl (addCandidate E 3660) [] with _ | ⟨a, _ | ⟨b, t⟩⟩
    · simp only [resolveWithNaiveOnly]
      rw [hl]
    · rw [hl] at h; simp at h
    · simp only [resolveWithNaiveOnly]
      rw [hl]
  · intro cm h
    simp only [resolveWithNaiveOnly]
    rw [h]
  · intro h
    rcases hl : (c1 :: c2 :: c3 :: rest).foldl (addCandidate E 3660) []
        with _ | ⟨a, _ | ⟨b, t⟩⟩
    · simp only [resolveWithNaiveOnly]
      rw [hl]
    · rw [hl] at h; simp at h
    · simp only [resolveWithNaiveOnly]
      rw [hl]

/-- Witness for C3: a concrete pair explained by the GPS zone commits; a
concrete unexplained pair records the pair conflict; three spread naive
candidates survive the loose pass and record the multiple-naive conflict. -/
theorem dtz_naive_only_witness :
    (resolveWithNaiveOnly E0 "taken" ctxNil [candN0, ⟨⟨2, none⟩, {"k"}, {9}⟩]
        (some 0)).2.isSome = true
    ∧ resolveWithNaiveOnly E0 "taken" ctxNil [candN0, candNFar] (some 0)
      = (ctxNil.recordConflict "taken" (.naivePairUnexplained candN0.rep candNFar.rep),
        none)
    ∧ resolveWithNaiveOnly E0 "taken" ctxNil [candN0, candNFar, candNFar2] none
      = (ctxNil.recordConflict "taken"
          (.multipleNaive [candN0, candNFar, candNFar2]), none) :=
  ⟨((dtz_naive_only E0 "taken" ctxNil (some 0) 0 candN0 candN0
        ⟨⟨2, none⟩, {"k"}, {9}⟩ candN0 []).2.2.1).mpr (by decide),
    (dtz_naive_only E0 "taken" ctxNil (some 0) 0 candN0 candN0 candNFar candN0
        []).2.2.2.1 (by decide),
    (dtz_naive_only E0 "taken" ctxNil none 0 candN0 candN0 candNFar candNFar2
        []).2.2.2.2.2.2.2 (by decide)⟩

-- C8: the WhatsApp correction.

theorem waParse_noon {ds : List Char} {wa : PyDT} (h : waParse ds = some wa) :
    wa.tz = none ∧ wa.wall % 86400 = 43200 := by
  unfold waParse at h
  split at h
  · dsimp only at h
    split at h
    · rw [Option.some.injEq] at h
      subst h
      refine ⟨rfl, ?_⟩
      simp only [mkWall]
      omega
    · exact absurd h (by simp)
  · exact absurd h (by simp)

theorem waScan_noon : ∀ {l : List MetadataEntry} {wa : PyDT},
    waScan l = some wa → wa.tz = none ∧ wa.wall % 86400 = 43200 := by
  intro l
  induction l with
  | nil => intro wa h; simp [waScan] at h
  | cons e t ih =>
    intro wa h
    rw [waScan] at h
    split at h
    · split at h
      · exact ih h
      · split at h
        · split at h
          next hp =>
            rw [Option.some.injEq] at h
            exact h ▸ waParse_noon hp
          next => exact ih h
        · exact ih h
    · exact ih h

/-- C8: when a filename entry matches the WhatsApp signature with a valid
calendar date and the resolved `taken` value is more than four whole days
from noon on that date, the step overrides `taken` with the naive noon
datetime on the filename date, and overrides `modified` as well (the claim's
condition for `modified` — absent or stale — always holds here, because
`get_value` has already unwrapped the stored argument, so the step's
`isinstance` test never sees a `DateTimeArgument`). -/
theorem whatsapp_correction (ctx : Ctx) (wa t : PyDT)
    (hscan : waScan (ctx.getEntriesByKeys ["google:title", "exiftool:SourceFile"])
      = some wa)
    (htaken : ctx.getValue "taken" = some (.dt t))
    (hfar : absDiffDays t.wall wa.wall > 4) :
    whatsappStep ctx
      = .ok ((ctx.setValue "taken" (.dtArg (.dt wa) "taken")).setValue "modified"
          (.dtArg (.dt wa) "modified"))
    ∧ wa.tz = none ∧ wa.wall % 86400 = 43200 := by
  refine ⟨?_, waScan_noon hscan⟩
  simp only [whatsappStep, hscan, htaken, hfar]
  rfl

/-- Witness for C8 at the concrete stale input: both fields are forced to
noon on 2023-06-15. -/
theorem whatsapp_correction_witness :
    whatsappStep ctxWA
      = .ok ((ctxWA.setValue "taken"
            (.dtArg (.dt ⟨mkWall 2023 6 15 12 0 0, none⟩) "taken")).setValue "modified"
          (.dtArg (.dt ⟨mkWall 2023 6 15 12 0 0, none⟩) "modified"))
    ∧ (⟨mkWall 2023 6 15 12 0 0, none⟩ : PyDT).tz = none
    ∧ (⟨mkWall 2023 6 15 12 0 0, none⟩ : PyDT).wall % 86400 = 43200 :=
  whatsapp_correction ctxWA ⟨mkWall 2023 6 15 12 0 0, none⟩
    ⟨mkWall 2023 1 1 12 0 0, none⟩ (by decide) (by decide) (by decide)

-- C9: shape lemmas for the fallback steps.

theorem contains_false_not_mem {α} [BEq α] [LawfulBEq α] {l : List α} {a : α}
    (h : l.contains a = false) : a ∉ l := by
  simp at h
  exact h

theorem not_mem_contains_false {α} [BEq α] [LawfulBEq α] {l : List α} {a : α}
    (h : a ∉ l) : l.contains a = false := by
  cases hc : l.contains a with
  | false => rfl
  | true => exact absurd (List.mem_of_elem_eq_true hc) h

theorem setValue_finalized_mem {ctx : Ctx} {f g : String} {v : MVal}
    (h : g ∈ (ctx.setValue f v).finalized) : g ∈ ctx.finalized ∨ g = f := by
  by_cases hf : ctx.finalized.contains f
  · simp only [Ctx.setValue, hf, if_pos] at h
    exact Or.inl h
  · simp only [Ctx.setValue, hf] at h
    rcases List.mem_append.mp h with hg | hg
    · exact Or.inl hg
    · exact Or.inr (List.mem_singleton.mp hg)

theorem setValue2_finalized_mem {ctx : Ctx} {g : String} {v w : MVal}
    (h : g ∈ ((ctx.setValue "taken" v).setValue "modified" w).finalized) :
    g ∈ ctx.finalized ∨ g = "taken" ∨ g = "modified" := by
  rcases setValue_finalized_mem h with h2 | h2
  · rcases setValue_finalized_mem h2 with h3 | h3
    · exact Or.inl h3
    · exact Or.inr (Or.inl h3)
  · exact Or.inr (Or.inr h2)

theorem gpsFallback_cases (E : TZEnv) (ctx : Ctx) :
    fallbackDateToGpsDateTime E ctx = ctx
    ∨ ∃ v, fallbackDateToGpsDateTime E ctx = ctx.setValue "taken" v
        ∧ "taken" ∉ ctx.finalized ∧ "taken" ∉ ctx.conflictKeys := by
  unfold fallbackDateToGpsDateTime
  by_cases h1 : "taken" ∈ ctx.finalized
  · simp [not_mem_contains_false, h1]
  · by_cases h2 : "taken" ∈ ctx.conflictKeys
    · simp [not_mem_contains_false h1, not_mem_contains_false, h2]
    · simp only [not_mem_contains_false h1, not_mem_contains_false h2,
        Bool.not_false, Bool.and_self, if_pos]
      split
      · exact Or.inr ⟨_, rfl, h1, h2⟩
      · exact Or.inl rfl

theorem crossFill_cases (fieldName fallbackKey : String) (ctx : Ctx) :
    fallbackDateTimeStep fieldName fallbackKey ctx = ctx
    ∨ ∃ v, fallbackDateTimeStep fieldName fallbackKey ctx = ctx.setValue fieldName v
        ∧ fieldName ∉ ctx.finalized ∧ fieldName ∉ ctx.conflictKeys := by
  unfold fallbackDateTimeStep
  by_cases h1 : fieldName ∈ ctx.finalized
  · simp [not_mem_contains_false, h1]
  · by_cases h2 : fieldName ∈ ctx.conflictKeys
    · simp [not_mem_contains_false h1, not_mem_contains_false, h2]
    · simp only [not_mem_contains_false h1, not_mem_contains_false h2,
        Bool.false_eq_true, if_false]
      split
      · exact Or.inl rfl
      · split
        · split
          · exact Or.inr ⟨_, rfl, h1, h2⟩
          · exact Or.inl rfl
        · exact Or.inl rfl

theorem fileModify_cases (ctx : Ctx) :
    fallbackFileModifyDate ctx = ctx
    ∨ ∃ v w, fallbackFileModifyDate ctx = (ctx.setValue "taken" v).setValue "modified" w
        ∧ "taken" ∉ ctx.finalized ∧ "taken" ∉ ctx.conflictKeys
        ∧ "modified" ∉ ctx.finalized ∧ "modified" ∉ ctx.conflictKeys := by
  unfold fallbackFileModifyDate
  by_cases h1 : "taken" ∈ ctx.finalized
  · simp [not_mem_contains_false, h1]
  · by_cases h2 : "taken" ∈ ctx.conflictKeys
    · simp [not_mem_contains_false h1, not_mem_contains_false, h2]
    · by_cases h3 : "modified" ∈ ctx.finalized
      · simp [not_mem_contains_false h1, not_mem_contains_false h2,
          not_mem_contains_false, h3]
      · by_cases h4 : "modified" ∈ ctx.conflictKeys
        · simp [not_mem_contains_false h1, not_mem_contains_false h2,
            not_mem_contains_false h3, not_mem_contains_false, h4]
        · simp only [not_mem_contains_false h1, not_mem_contains_false h2,
            not_mem_contains_false h3, not_mem_contains_false h4,
            Bool.or_self, Bool.false_eq_true, if_false]
          split
          · exact Or.inl rfl
          · split
            · exact Or.inr ⟨_, _, rfl, h1, h2, h3, h4⟩
            · exact Or.inl rfl

theorem roughLoop_cases (ctx : Ctx) : ∀ fs : List String,
    roughLoop ctx fs = ctx
    ∨ ∃ v w, roughLoop ctx fs = (ctx.setValue "taken" v).setValue "modified" w := by
  intro fs
  induction fs with
  | nil => exact Or.inl rfl
  | cons f t ih =>
    rw [roughLoop]
    split
    · split
      · exact Or.inr ⟨_, _, rfl⟩
      · exact ih
    · exact ih

theorem roughStep_cases (ctx : Ctx) :
    fallbackRoughDateFromFilename ctx = ctx
    ∨ ∃ v w,
        fallbackRoughDateFromFilename ctx = (ctx.setValue "taken" v).setValue "modified" w
        ∧ "taken" ∉ ctx.finalized ∧ "taken" ∉ ctx.conflictKeys
        ∧ "modified" ∉ ctx.finalized ∧ "modified" ∉ ctx.conflictKeys := by
  unfold fallbackRoughDateFromFilename
  by_cases h1 : "taken" ∈ ctx.finalized
  · simp [not_mem_contains_false, h1]
  · by_cases h2 : "taken" ∈ ctx.conflictKeys
    · simp [not_mem_contains_false h1, not_mem_contains_false, h2]
    · by_cases h3 : "modified" ∈ ctx.finalized
      · simp [not_mem_contains_false h1, not_mem_contains_false h2,
          not_mem_contains_false, h3]
      · by_cases h4 : "modified" ∈ ctx.conflictKeys
        · simp [not_mem_contains_false h1, not_mem_contains_false h2,
            not_mem_contains_false h3, not_mem_contains_false, h4]
        · simp only [not_mem_contains_false h1, not_mem_contains_false h2,
            not_mem_contains_false h3, not_mem_contains_false h4,
            Bool.or_self, Bool.false_eq_true, if_false]
          rcases roughLoop_cases ctx ((ctx.getEntriesByKeys ["google:title",
              "exiftool:SourceFile"]).filterMap fun e =>
                match e.value_str with
                | some s =>
                  if s = "" then none
                  else if e.key = "exiftool:SourceFile" then some (pathBase s) else some s
                | none => none) with h | ⟨v, w, h⟩
          · exact Or.inl h
          · exact Or.inr ⟨v, w, h, h1, h2, h3, h4⟩

/-- C9: each fallback step other than the WhatsApp correction — the
GPS-derived date fallback, the cross-field fill, the filesystem modify-date
fallback and the filename `YYYYMMDD` fallback — is the identity whenever a
target field is already finalized or in conflict (so that field's committed
value, finalized status and conflict list are unchanged), never changes any
conflict list, and the only fields it newly finalizes were neither finalized
nor in conflict beforehand. -/
theorem fallback_frame (E : TZEnv) (ctx : Ctx) (fieldName fallbackKey : String) :
    (("taken" ∈ ctx.finalized ∨ "taken" ∈ ctx.conflictKeys) →
      fallbackDateToGpsDateTime E ctx = ctx)
    ∧ (fallbackDateToGpsDateTime E ctx).conflicts = ctx.conflicts
    ∧ (∀ f, f ∈ (fallbackDateToGpsDateTime E ctx).finalized →
        f ∉ ctx.finalized → f ∉ ctx.conflictKeys)
    ∧ ((fieldName ∈ ctx.finalized ∨ fieldName ∈ ctx.conflictKeys) →
      fallbackDateTimeStep fieldName fallbackKey ctx = ctx)
    ∧ (fallbackDateTimeStep fieldName fallbackKey ctx).conflicts = ctx.conflicts
    ∧ (∀ f, f ∈ (fallbackDateTimeStep fieldName fallbackKey ctx).finalized →
        f ∉ ctx.finalized → f ∉ ctx.conflictKeys)
    ∧ (("taken" ∈ ctx.finalized ∨ "taken" ∈ ctx.conflictKeys
        ∨ "modified" ∈ ctx.finalized ∨ "modified" ∈ ctx.conflictKeys) →
      fallbackFileModifyDate ctx = ctx)
    ∧ (fallbackFileModifyDate ctx).conflicts = ctx.conflicts
    ∧ (∀ f, f ∈ (fallbackFileModifyDate ctx).finalized →
        f ∉ ctx.finalized → f ∉ ctx.conflictKeys)
    ∧ (("taken" ∈ ctx.finalized ∨ "taken" ∈ ctx.conflictKeys
        ∨ "modified" ∈ ctx.finalized ∨ "modified" ∈ ctx.conflictKeys) →
      fallbackRoughDateFromFilename ctx = ctx)
    ∧ (fallbackRoughDateFromFilename ctx).conflicts = ctx.conflicts
    ∧ (∀ f, f ∈ (fallbackRoughDateFromFilename ctx).finalized →
        f ∉ ctx.finalized → f ∉ ctx.conflictKeys) := by
  refine ⟨?_, ?_, ?_, ?_, ?_, ?_, ?_, ?_, ?_, ?_, ?_, ?_⟩
  · intro h
    rcases gpsFallback_cases E ctx with hc | ⟨v, hc, hfin, hcf⟩
    · exact hc
    · rcases h with h | h
      · exact absurd h hfin
      · exact absurd h hcf
  · rcases gpsFallback_cases E ctx with h | ⟨v, h, _⟩ <;>
      simp [h, setValue_conflicts]
  · intro f hf hn
    rcases gpsFallback_cases E ctx with h | ⟨v, h, hfin, hcf⟩
    · rw [h] at hf; exact absurd hf hn
    · rw [h] at hf
      rcases setValue_finalized_mem hf with h2 | rfl
      · exact absurd h2 hn
      · exact hcf
  · intro h
    rcases crossFill_cases fieldName fallbackKey ctx with hc | ⟨v, hc, hfin, hcf⟩
    · exact hc
    · rcases h with h | h
      · exact absurd h hfin
      · exact absurd h hcf
  · rcases crossFill_cases fieldName fallbackKey ctx with h | ⟨v, h, _⟩ <;>
      simp [h, setValue_conflicts]
  · intro f hf hn
    rcases crossFill_cases fieldName fallbackKey ctx with h | ⟨v, h, hfin, hcf⟩
    · rw [h] at hf; exact absurd hf hn
    · rw [h] at hf
      rcases setValue_finalized_mem hf with h2 | rfl
      · exact absurd h2 hn
      · exact hcf
  · intro h
    rcases fileModify_cases ctx with hc | ⟨v, w, hc, h1, h2, h3, h4⟩
    · exact hc
    · rcases h with h | h | h | h
      · exact absurd h h1
      · exact absurd h h2
      · exact absurd h h3
      · exact absurd h h4
  · rcases fileModify_cases ctx with h | ⟨v, w, h, _⟩ <;>
      simp [h, setValue_conflicts]
  · intro f hf hn
    rcases fileModify_cases ctx with h | ⟨v, w, h, h1, h2, h3, h4⟩
    · rw [h] at hf; exact absurd hf hn
    · rw [h] at hf
      rcases setValue2_finalized_mem hf with hm | rfl | rfl
      · exact absurd hm hn
      · exact h2
      · exact h4
  · intro h
    rcases roughStep_cases ctx with hc | ⟨v, w, hc, h1, h2, h3, h4⟩
    · exact hc
    · rcases h with h | h | h | h
      · exact absurd h h1
      · exact absurd h h2
      · exact absurd h h3
      · exact absurd h h4
  · rcases roughStep_cases ctx with h | ⟨v, w, h, _⟩ <;>
      simp [h, setValue_conflicts]
  · intro f hf hn
    rcases roughStep_cases ctx with h | ⟨v, w, h, h1, h2, h3, h4⟩
    · rw [h] at hf; exact absurd hf hn
    · rw [h] at hf
      rcases setValue2_finalized_mem hf with hm | rfl | rfl
      · exact absurd hm hn
      · exact h2
      · exact h4

/-- Witness for C9: on a context with `taken` finalized and `modified`
conflicted, all four fallback steps are the identity. -/
theorem fallback_frame_witness :
    fallbackDateToGpsDateTime E0 ctxFrame = ctxFrame
    ∧ fallbackDateTimeStep "modified" "taken" ctxFrame = ctxFrame
    ∧ fallbackFileModifyDate ctxFrame = ctxFrame
    ∧ fallbackRoughDateFromFilename ctxFrame = ctxFrame :=
  ⟨(fallback_frame E0 ctxFrame "modified" "taken").1 (Or.inl (by decide)),
    (fallback_frame E0 ctxFrame "modified" "taken").2.2.2.1 (Or.inr (by decide)),
    (fallback_frame E0 ctxFrame "modified" "taken").2.2.2.2.2.2.1 (Or.inl (by decide)),
    (fallback_frame E0 ctxFrame "modified" "taken").2.2.2.2.2.2.2.2.2.1
      (Or.inl (by decide))⟩

-- C4 and C5: the candidate container.

theorem dtMatch_symm (E : TZEnv) (tol : Int) (a b : PyDT) :
    dtMatch E tol a b = dtMatch E tol b a := by
  unfold dtMatch
  cases ha : a.isAware <;> cases hb : b.isAware <;> simp [ha, hb]
  · rw [abs_sub_comm]
  · congr 1
    · rw [abs_sub_comm]
    · exact decide_eq_decide.mpr eq_comm

theorem isMatch_symm (E : TZEnv) (tol : Int) (a b : Cand) :
    isMatch E tol a b = isMatch E tol b a := dtMatch_symm E tol a.rep b.rep

theorem isMatch_def (E : TZEnv) (tol : Int) (c1 c2 : Cand) :
    isMatch E tol c1 c2 = dtMatch E tol c1.rep c2.rep := rfl

theorem dtMatch_aware_eq {E : TZEnv} {tol : Int} {a b : PyDT}
    (h : dtMatch E tol a b = true) : a.isAware = b.isAware := by
  unfold dtMatch at h
  by_cases hab : a.isAware = b.isAware
  · exact hab
  · rw [if_pos (by simpa using hab)] at h
    exact absurd h (by simp)

theorem foldl_pyMinD_mem (E : TZEnv) :
    ∀ (t : List PyDT) (a : PyDT), t.foldl (pyMinD E) a ∈ a :: t := by
  intro t
  induction t with
  | nil => intro a; simp
  | cons b t ih =>
    intro a
    rw [List.foldl_cons]
    rcases List.mem_cons.mp (ih (pyMinD E a b)) with h | h
    · rw [h]
      unfold pyMinD
      split
      · exact List.mem_cons_of_mem a (List.mem_cons_self b t)
      · exact List.mem_cons_self a (b :: t)
    · exact List.mem_cons_of_mem a (List.mem_cons_of_mem b h)

theorem merged_rep_exists (E : TZEnv) (g : List Cand) (c0 : PyDT) (hg : g ≠ []) :
    ∃ m ∈ g, (match g.map Cand.rep with
      | [] => c0
      | h :: t => t.foldl (pyMinD E) h) = m.rep := by
  cases g with
  | nil => exact absurd rfl hg
  | cons a t =>
    simp only [List.map_cons]
    rcases List.mem_cons.mp (foldl_pyMinD_mem E (t.map Cand.rep) a.rep) with h | h
    · exact ⟨a, List.mem_cons_self a t, h⟩
    · rcases List.mem_map.mp h with ⟨m, hm, hrep⟩
      exact ⟨m, List.mem_cons_of_mem a hm, hrep.symm⟩

theorem addCandidate_preserves (E : TZEnv) (tol : Int) (l : List Cand) (n : Cand)
    (h : noTwoMatch E tol l) : noTwoMatch E tol (addCandidate E tol l n) := by
  unfold addCandidate
  by_cases hm : (l.filter (fun c => isMatch E tol c n)).isEmpty
  · simp only [hm, if_pos]
    rw [noTwoMatch, List.pairwise_append]
    refine ⟨h, List.pairwise_singleton _ _, ?_⟩
    intro a ha b hb
    rw [List.mem_singleton] at hb
    subst hb
    have hnil := List.isEmpty_iff.mp hm
    rw [List.filter_eq_nil_iff] at hnil
    simpa using hnil a ha
  · simp only [hm, Bool.false_eq_true, if_false]
    rw [noTwoMatch, List.pairwise_append]
    refine ⟨h.sublist (List.filter_sublist l), List.pairwise_singleton _ _, ?_⟩
    intro d hd b hb
    rw [List.mem_singleton] at hb
    subst hb
    have hdl : d ∈ l := List.mem_of_mem_filter hd
    have hdnot : d ∉ l.filter (fun c => isMatch E tol c n) := by
      have := (List.mem_filter.mp hd).2
      simp only [Bool.not_eq_true'] at this
      exact contains_false_not_mem this
    have hdn : isMatch E tol d n = false := by
      cases hc : isMatch E tol d n with
      | false => rfl
      | true => exact absurd (List.mem_filter.mpr ⟨hdl, hc⟩) hdnot
    rcases merged_rep_exists E (l.filter (fun c => isMatch E tol c n) ++ [n]) n.rep
        (by simp) with ⟨m, hmem, hrep⟩
    rw [isMatch_def, hrep]
    show dtMatch E tol d.rep m.rep = false
    rcases List.mem_append.mp hmem with hmm | hmn
    · have hml : m ∈ l := List.mem_of_mem_filter hmm
      have hdm : d ≠ m := fun he => hdnot (he ▸ hmm)
      have hsym : Symmetric (fun a b : Cand => isMatch E tol a b = false) := by
        intro x y hxy
        rw [isMatch_symm]
        exact hxy
      exact List.Pairwise.forall hsym h hdl hml hdm
    · rw [List.mem_singleton] at hmn
      subst hmn
      exact hdn

/-- C5: after any sequence of `add_candidate` calls starting from the empty
container, no two candidates held by the container match: there is no pair
with the same awareness whose values are within tolerance (and, for aware
candidates, equal UTC offsets).  Every reachable container state is the fold
of some call sequence, so the invariant holds after each call. -/
theorem container_no_two_match (E : TZEnv) (tol : Int) (seq : List Cand) :
    noTwoMatch E tol (seq.foldl (addCandidate E tol) []) := by
  have hgen : ∀ (l : List Cand), noTwoMatch E tol l →
      noTwoMatch E tol (seq.foldl (addCandidate E tol) l) := by
    induction seq with
    | nil => intro l h; exact h
    | cons c t ih =>
      intro l h
      exact ih (addCandidate E tol l c) (addCandidate_preserves E tol l c h)
  exact hgen [] List.Pairwise.nil

theorem candEquiv_refl (E : TZEnv) (c : Cand) : candEquiv E c c :=
  ⟨⟨rfl, rfl⟩, rfl, rfl⟩

theorem pyMinD_equiv {E : TZEnv} {tol : Int} {a b : PyDT}
    (h : dtMatch E tol a b = true) : pyDTEq E (pyMinD E a b) (pyMinD E b a) := by
  unfold pyMinD
  by_cases h1 : b.cmpKey E < a.cmpKey E
  · rw [if_pos h1, if_neg (by omega)]
    exact ⟨rfl, rfl⟩
  · by_cases h2 : a.cmpKey E < b.cmpKey E
    · rw [if_neg h1, if_pos h2]
      exact ⟨rfl, rfl⟩
    · rw [if_neg h1, if_neg h2]
      exact ⟨dtMatch_aware_eq h, by omega⟩

/-- C4 (amended: order invariance holds for two candidates, and already
fails for three): adding two candidates to an empty container in either
order yields the same cluster set — Python-equal representative values and
equal key and id unions. -/
theorem add_two_commutes (E : TZEnv) (tol : Int) (A B : Cand) :
    clusterSetEquiv E (addCandidate E tol (addCandidate E tol [] A) B)
      (addCandidate E tol (addCandidate E tol [] B) A) := by
  have hA : addCandidate E tol [] A = [A] := by
    unfold addCandidate
    simp
  have hB : addCandidate E tol [] B = [B] := by
    unfold addCandidate
    simp
  rw [hA, hB]
  by_cases hm : isMatch E tol A B = true
  · have hm2 : isMatch E tol B A = true := by rw [isMatch_symm]; exact hm
    have hmm : [A].filter (fun c => isMatch E tol c B) = [A] := by simp [hm]
    have hmm2 : [B].filter (fun c => isMatch E tol c A) = [B] := by simp [hm2]
    have e1 : addCandidate E tol [A] B
        = [⟨pyMinD E A.rep B.rep, A.keys ∪ B.keys, A.ids ∪ B.ids⟩] := by
      unfold addCandidate
      rw [hmm]
      simp
    have e2 : addCandidate E tol [B] A
        = [⟨pyMinD E B.rep A.rep, B.keys ∪ A.keys, B.ids ∪ A.ids⟩] := by
      unfold addCandidate
      rw [hmm2]
      simp
    rw [e1, e2]
    refine ⟨rfl, ?_, ?_⟩
    · intro c hc
      rw [List.mem_singleton] at hc
      subst hc
      exact ⟨_, List.mem_singleton_self _, pyMinD_equiv hm, Finset.union_comm _ _,
        Finset.union_comm _ _⟩
    · intro c hc
      rw [List.mem_singleton] at hc
      subst hc
      exact ⟨_, List.mem_singleton_self _, pyMinD_equiv hm, Finset.union_comm _ _,
        Finset.union_comm _ _⟩
  · have hm' : isMatch E tol A B = false := by simpa using hm
    have hm2 : isMatch E tol B A = false := by rw [isMatch_symm]; exact hm'
    have hmm : [A].filter (fun c => isMatch E tol c B) = [] := by simp [hm']
    have hmm2 : [B].filter (fun c => isMatch E tol c A) = [] := by simp [hm2]
    unfold addCandidate
    rw [hmm, hmm2]
    simp only [List.isEmpty_nil, if_pos]
    refine ⟨by simp, ?_, ?_⟩
    · intro c hc
      simp only [List.cons_append, List.nil_append] at hc
      rcases List.mem_cons.mp hc with rfl | hc
      · exact ⟨c, by simp, candEquiv_refl E c⟩
      · rw [List.mem_singleton] at hc
        subst hc
        exact ⟨c, by simp, candEquiv_refl E c⟩
    · intro c hc
      simp only [List.cons_append, List.nil_append] at hc
      rcases List.mem_cons.mp hc with rfl | hc
      · exact ⟨c, by simp, candEquiv_refl E c⟩
      · rw [List.mem_singleton] at hc
        subst hc
        exact ⟨c, by simp, candEquiv_refl E c⟩

/-- Counterexample to C4: with tolerance 5 s, inserting the chain 0 s, 4 s,
8 s in the order (0, 4, 8) leaves two clusters, while the order (0, 8, 4)
merges everything into one — the final cluster set depends on insertion
order. -/
theorem add_order_dependent_cx :
    ([candT0, candT4, candT8].foldl (addCandidate E0 5) []).length = 2
    ∧ ([candT0, candT8, candT4].foldl (addCandidate E0 5) []).length = 1
    ∧ ¬ clusterSetEquiv E0 ([candT0, candT4, candT8].foldl (addCandidate E0 5) [])
        ([candT0, candT8, candT4].foldl (addCandidate E0 5) []) := by
  have h1 : ([candT0, candT4, candT8].foldl (addCandidate E0 5) []).length = 2 := by
    decide
  have h2 : ([candT0, candT8, candT4].foldl (addCandidate E0 5) []).length = 1 := by
    decide
  refine ⟨h1, h2, fun h => ?_⟩
  rw [clusterSetEquiv, h1, h2] at h
  exact absurd h.1 (by decide)

-- C10: a field can end up both conflicted and committed.

/-- C10: on a concrete input whose naive capture dates conflict, the
pipeline prefix before the WhatsApp step leaves `taken` conflicted and
uncommitted; the WhatsApp step still commits noon on the filename date; and
after the full default pipeline `taken` is simultaneously present in the
conflicts map and in the finalized fields with a committed value. -/
theorem pipeline_conflict_and_commit :
    (match runPrefix9 E0 [sampleEntries] with
      | .ok c => c.conflictKeys.contains "taken" && !(c.finalized.contains "taken")
      | .error _ => false) = true
    ∧ (match runPrefix9 E0 [sampleEntries] with
      | .ok c =>
        (match whatsappStep c with
          | .ok c2 =>
            c2.finalized.contains "taken"
              && (lookupKV c2.merged "taken"
                == some (.dtArg (.dt ⟨mkWall 2023 6 15 12 0 0, none⟩) "taken"))
          | .error _ => false)
      | .error _ => false) = true
    ∧ (match runPipeline E0 [sampleEntries] with
      | .ok c =>
        c.conflictKeys.contains "taken" && c.finalized.contains "taken"
          && (lookupKV c.merged "taken"
            == some (.dtArg (.dt ⟨mkWall 2023 6 15 12 0 0, none⟩) "taken"))
      | .error _ => false) = true :=
  ⟨by decide, by decide, by decide⟩

end MediaMerge
